import Mathlib

set_option maxRecDepth 8000
set_option maxHeartbeats 1000000

/-
Verification of the IA-GENERADOR document-generation service.

The Python sources (document_generator.py, utils.py, config.py) are shallowly
embedded below.  Python strings are modelled as `List Char` (Python indexes
and slices strings by code point, exactly like a character list); text inputs
enter as Lean `String`s and are converted with `String.toList` at the
boundary.  Python's `str.strip`/`str.split`/`str.lower` are reimplemented
character-by-character; `str.lower` is modelled for the ASCII range plus the
accented Spanish letters actually occurring in the sources.
-/

namespace IAGen

/-! ## Python string primitives over `List Char` -/

/-- Whitespace as recognised by Python's `str.strip`/`str.split` for the
character set used in this code base (space, tab, CR, LF). -/
def isPySpace (c : Char) : Bool :=
  c = ' ' || c = '\t' || c = '\r' || c = '\n'

/-- Python `s.strip()`: drop leading and trailing whitespace. -/
def pyStrip (s : List Char) : List Char :=
  ((s.dropWhile isPySpace).reverse.dropWhile isPySpace).reverse

/-- Python `s.lower()`, restricted to ASCII letters plus the accented
uppercase Spanish letters used in the sources. -/
def pyLowerChar (c : Char) : Char :=
  if 'A' ≤ c && c ≤ 'Z' then Char.ofNat (c.toNat + 32)
  else if c = 'Á' then 'á' else if c = 'É' then 'é' else if c = 'Í' then 'í'
  else if c = 'Ó' then 'ó' else if c = 'Ú' then 'ú' else if c = 'Ñ' then 'ñ'
  else if c = 'Ü' then 'ü' else c

def pyLower (s : List Char) : List Char := s.map pyLowerChar

/-- Python `s.split(sep)` for a single-character separator. -/
def splitOnChar (c : Char) : List Char → List (List Char)
  | [] => [[]]
  | x :: xs =>
    if x = c then [] :: splitOnChar c xs
    else
      match splitOnChar c xs with
      | [] => [[x]]
      | h :: t => (x :: h) :: t

/-- `isPfx p s`: `p` is a prefix of `s` (Python `s.startswith(p)`). -/
def isPfx : List Char → List Char → Bool
  | [], _ => true
  | _ :: _, [] => false
  | a :: as, b :: bs => a == b && isPfx as bs

/-- `isSfx p s`: `p` is a suffix of `s` (Python `s.endswith(p)`). -/
def isSfx (p s : List Char) : Bool := isPfx p.reverse s.reverse

/-- `hasInfixL s p`: `p` occurs as a contiguous substring of `s`
(Python `p in s`). -/
def hasInfixL (s p : List Char) : Bool :=
  match s with
  | [] => p.isEmpty
  | _ :: tl => isPfx p s || hasInfixL tl p

/-- Python `s.split(sep)` for a multi-character separator (fuel-driven; the
fuel `s.length + 1` always suffices since every step consumes at least one
character of `s`). -/
def splitOnSubAux (pat : List Char) : Nat → List Char → List Char → List (List Char)
  | 0, acc, s => [acc.reverse ++ s]
  | _ + 1, acc, [] => [acc.reverse]
  | f + 1, acc, c :: cs =>
    if isPfx pat (c :: cs) then
      acc.reverse :: splitOnSubAux pat f [] ((c :: cs).drop pat.length)
    else
      splitOnSubAux pat f (c :: acc) cs

def splitOnSub (pat s : List Char) : List (List Char) :=
  splitOnSubAux pat (s.length + 1) [] s

/-- Number of words of Python `len(s.split())`: maximal runs of
non-whitespace characters. -/
def wordCount (s : List Char) : Nat :=
  (s.foldl
    (fun (p : Bool × Nat) c =>
      if isPySpace c then (false, p.2)
      else if p.1 then (true, p.2) else (true, p.2 + 1))
    (false, 0)).2

/-- Decimal digits of a natural number (Python `str(n)`). -/
def natChars (n : Nat) : List Char := (toString n).toList

/-- Python `s[:n]` on a string value. -/
def pyTake (n : Nat) (s : String) : String := ⟨s.toList.take n⟩

/-- `String` wrapper for `pyStrip` (Python `s.strip()`). -/
def pyStripS (s : String) : String := ⟨pyStrip s.toList⟩

/-! ## Content validator (document_generator.py, `validate_generated_text`) -/

/-- Formatting levels; `generate`/`validate_generated_text` are only reached
with one of the three values of `VALID_LEVELS` (config.py), so the level is
embedded as an enumeration. -/
inductive Level
  | basico
  | medio
  | profesional
deriving DecidableEq, Repr

/-- The `max_words` table of `validate_generated_text`. -/
def Level.maxWords : Level → Nat
  | .basico => 500
  | .medio => 1000
  | .profesional => 2000

/-- The `max_tokens` table of `generate` (non-conversational branch). -/
def Level.maxTokens : Level → Nat
  | .basico => 1000
  | .medio => 2000
  | .profesional => 4000

def Level.name : Level → String
  | .basico => "basico"
  | .medio => "medio"
  | .profesional => "profesional"

/-- The heading test of `validate_generated_text`:
`re.search(r'^.*\n*(# .+|## .+|### .+)', text, re.MULTILINE)`.
With MULTILINE `^` matching at every line start, `.` not matching a newline
and `.*` free to consume any prefix of a line, the regex matches exactly when
somewhere in the text a `'#'` is followed by `' '` and then by at least one
further non-newline character (the `## `/`### ` alternatives are subsumed,
since any such occurrence contains a `"# "`).  The scan below decides that
condition. -/
def hashHeadMatch : List Char → Bool
  | y :: c :: _ => y == ' ' && c != '\n'
  | _ => false

def hasHashSpace : List Char → Bool
  | [] => false
  | x :: xs => (x == '#' && hashHeadMatch xs) || hasHashSpace xs

/-- `DocumentGenerator.validate_generated_text` (document_generator.py
lines 88-102).  Returns `(is_valid, message)`. -/
def validate_generated_text (text : String) (level : Level)
    (is_conversational : Bool) : Bool × String :=
  let word_count := wordCount text.toList
  if word_count > level.maxWords then
    (false, "El contenido excede el límite de palabras para el nivel " ++
      level.name ++ " (" ++ toString level.maxWords ++
      " palabras). Tiene " ++ toString word_count ++ " palabras.")
  else if word_count < 50 && !is_conversational then
    (false, "El contenido es demasiado corto (menos de 50 palabras).")
  else if (level == .medio || level == .profesional) && !is_conversational &&
      !hasHashSpace text.toList then
    (false, "El documento debe tener al menos un encabezado para niveles medio o profesional.")
  else
    (true, "Contenido válido.")

/-! ## Prompt classifier (document_generator.py, `is_conversational_prompt`) -/

/-- Match for a pattern of the shape `^\s*KW\s*$` (with `allowQ = false`) or
`^\s*KW\s*\??\s*$` (with `allowQ = true`), applied to the already lowered and
stripped prompt.  Since the input is stripped, the leading `\s*` matches the
empty string and the trailing whitespace groups can only be interior
whitespace before an optional final `?`. -/
def greetMatch (s : List Char) (kw : String) (allowQ : Bool) : Bool :=
  isPfx kw.toList s &&
    (let r := s.drop kw.toList.length
     r.isEmpty || (allowQ && r.dropWhile isPySpace == ['?']))

/-- `DocumentGenerator.is_conversational_prompt` (document_generator.py
lines 31-38): the lowered, stripped prompt is matched against the fixed
greeting patterns. -/
def is_conversational_prompt (prompt : String) : Bool :=
  let s := pyStrip (pyLower prompt.toList)
  greetMatch s "hola" false || greetMatch s "cómo estás" true ||
  greetMatch s "hey" false || greetMatch s "hi" false ||
  greetMatch s "qué tal" true || greetMatch s "hello" false

/-! ## Conversation data model -/

/-- One chat message, as the `{"role": ..., "content": ...}` dictionaries
passed to the completion API. -/
structure Message where
  role : String
  content : String
deriving DecidableEq, Repr

/-- Association-list lookup (first match wins), modelling Python dictionary
reads on the process-wide mutable maps. -/
def alookup {α β : Type} [DecidableEq α] (k : α) : List (α × β) → Option β
  | [] => none
  | (a, b) :: t => if a = k then some b else alookup k t

/-- The per-session context dictionary created in
`DocumentGenerator.generate` (document_generator.py lines 109-117). -/
structure SessionCtx where
  last_document : Option String
  last_prompt : Option String
  last_doc_type : Option String
  last_template : Option String
  last_level : Option String
  last_language : Option String
deriving DecidableEq, Repr

def SessionCtx.empty : SessionCtx := ⟨none, none, none, none, none, none⟩

/-- Python truthiness of an optional string (`None` and `""` are falsy). -/
def optTruthy : Option String → Bool
  | none => false
  | some s => !(s == "")

/-- Python `f"{x}"` rendering of an optional string (`None` prints as
`"None"`). -/
def optRepr : Option String → String
  | none => "None"
  | some s => s

/-- The cache fingerprint of `generate_cache_key` (utils.py lines 33-35).
The source builds the string
`f"{prompt}:{doc_type}:{template}:{json.dumps(fields, sort_keys=True)}:{level}:{sha256(history_str).hexdigest()}"`;
the fingerprint is a deterministic function of exactly these six inputs, which
is modelled structurally (the SHA-256 digest of the serialized history is
represented by the history itself; the claims only use that identical inputs
produce identical fingerprints). -/
structure CacheKey where
  prompt : String
  doc_type : String
  template : String
  fields : List (String × String)
  level : Level
  history : List Message
deriving DecidableEq

def generate_cache_key (prompt doc_type template : String)
    (fields : List (String × String)) (level : Level)
    (history : List Message) : CacheKey :=
  ⟨prompt, doc_type, template, fields, level, history⟩

/-- `summarize_history` (utils.py lines 40-49). -/
def summarize_history (history : List Message) : String :=
  if history.isEmpty then ""
  else
    history.foldl
      (fun acc m =>
        if m.role == "user" then
          acc ++ "- El usuario dijo: " ++ pyTake 100 m.content ++ "...\n"
        else if m.role == "assistant" then
          acc ++ "- La IA respondió: " ++ pyTake 100 m.content ++ "...\n"
        else acc)
      "Contexto previo de la conversación:\n"

/-! ## Configuration literals (config.py) -/

def LEVEL_INSTRUCTIONS : Level → String
  | .basico =>
    "Genera un documento simple, breve (máximo 500 palabras), con estructura mínima (introducción, cuerpo, conclusión) y formato básico."
  | .medio =>
    "Genera un documento estructurado, de longitud moderada (hasta 1000 palabras), con secciones claras (antecedentes, análisis, conclusiones) y formato limpio, incluyendo listas y tablas si es relevante."
  | .profesional =>
    "Genera un documento extenso, altamente detallado (hasta 2000 palabras), con estructura avanzada (múltiples secciones, subsecciones, apéndices, referencias), formato profesional, tablas complejas y listas anidadas."

def TEMPLATES : List (String × String) :=
  [("carta_formal",
    "\nEstimado/a {destinatario},\n\n{contenido}\n\nAtentamente,\n{remitente}\n    "),
   ("contrato",
    "\nCONTRATO DE {tipo}\n\nEntre {parte_a}, y {parte_b}, se acuerda lo siguiente:\n\n{contenido}\n\nFirmado en {lugar}, el {fecha}.\n\n[Firma {parte_a}]                [Firma {parte_b}]\n    "),
   ("informe",
    "\nINFORME: {titulo}\n\n{contenido}\n    "),
   ("factura",
    "\nFACTURA #{numero}\n\nEmitida a: {cliente}\nFecha: {fecha}\n\n{contenido}\n\nTotal: {total}\n    ")]

/-! ## System-message assembly (document_generator.py lines 119-205) -/

/-- The context block appended when a prior document exists for the session
(document_generator.py lines 121-130). -/
def context_block (ctx : SessionCtx) : String :=
  "\nContexto del documento anterior:\n" ++
  "- Tipo de documento: " ++ optRepr ctx.last_doc_type ++ "\n" ++
  "- Plantilla: " ++ optRepr ctx.last_template ++ "\n" ++
  "- Nivel: " ++ optRepr ctx.last_level ++ "\n" ++
  "- Idioma: " ++ optRepr ctx.last_language ++ "\n" ++
  "- Contenido previo (resumen): " ++ pyTake 200 (optRepr ctx.last_document) ++ "...\n" ++
  "Si el usuario solicita modificaciones (por ejemplo, \x27añade una cláusula\x27), aplica los cambios al documento anterior manteniendo su estructura y estilo."

/-- The level-specific structure blocks (document_generator.py
lines 158-196). -/
def level_structure : Level → String
  | .basico =>
    "\n**Estructura para Nivel Básico**:\n" ++
    "Organiza el documento en las siguientes secciones:\n" ++
    "- **# Introducción**: Proporciona una visión general del tema, su contexto y relevancia (mínimo 3-4 oraciones detalladas).\n" ++
    "- **## Descripción**: Describe el tema en detalle, explicando qué es y cómo funciona (mínimo 2 párrafos).\n" ++
    "- **## Conclusión**: Resume los puntos clave y menciona la importancia del tema (mínimo 2-3 oraciones).\n" ++
    "Incluye al menos un ejemplo práctico simple en la sección de Descripción."
  | .medio =>
    "\n**Estructura para Nivel Medio**:\n" ++
    "Organiza el documento en las siguientes secciones:\n" ++
    "- **# Introducción**: Proporciona una visión general del tema, su contexto y relevancia.\n" ++
    "- **## Descripción**: Describe el tema en detalle, explicando qué es y cómo funciona.\n" ++
    "- **## Historia o Evolución**: Explica el origen o la evolución del tema a lo largo del tiempo.\n" ++
    "- **## Aplicaciones y Usos Prácticos**: Detalla cómo se aplica el tema en la vida real, con ejemplos concretos.\n" ++
    "- **## Conclusión**: Resume los puntos clave y propone posibles direcciones futuras.\n" ++
    "Incluye ejemplos prácticos en la sección de Aplicaciones y Usos Prácticos."
  | .profesional =>
    "\n**Estructura para Nivel Profesional**:\n" ++
    "Organiza el documento en las siguientes secciones:\n" ++
    "- **# Introducción**: Proporciona una visión general del tema, su contexto y relevancia.\n" ++
    "- **## Descripción**: Describe el tema en detalle, explicando qué es y cómo funciona.\n" ++
    "- **## Historia o Evolución**: Explica el origen o la evolución del tema a lo largo del tiempo.\n" ++
    "- **## Características Principales**: Detalla las características clave del tema.\n" ++
    "- **## Aplicaciones y Usos Prácticos**: Describe aplicaciones reales, con ejemplos concretos.\n" ++
    "- **## Beneficios**: Explica los beneficios del tema para los usuarios o la industria.\n" ++
    "- **## Limitaciones**: Analiza las limitaciones o desafíos asociados con el tema.\n" ++
    "- **## Consideraciones Éticas**: Aborda posibles riesgos éticos, como sesgos o problemas de privacidad (si aplica).\n" ++
    "- **## Comparación con Alternativas**: Compara el tema con otras soluciones o tecnologías similares.\n" ++
    "- **## Estudios de Caso**: Incluye un estudio de caso o ejemplo detallado de implementación.\n" ++
    "- **## Impacto Futuro**: Discute cómo el tema podría evolucionar en el futuro.\n" ++
    "- **## Recomendaciones**: Propón recomendaciones para su uso, implementación o mejora.\n" ++
    "- **## Conclusión**: Resume los puntos clave y destaca la importancia del tema.\n" ++
    "Asegúrate de incluir ejemplos prácticos, datos ficticios realistas, y análisis profundos en las secciones correspondientes."

def heading_reminder : String :=
  "\n- **Importante**: Para niveles medio y profesional, el documento debe incluir al menos un encabezado (por ejemplo, # Título, ## Subtítulo) " ++
  "para estructurar el contenido de manera clara."

/-- The system message of `generate`, assembled exactly as in
document_generator.py lines 132-202. -/
def build_system_message (is_conv : Bool) (level : Level) (language : String)
    (history_summary context_summary : String) : String :=
  if is_conv then
    "Eres Grok, una IA desarrollada por xAI. Responde de manera breve, amigable y directa en el idioma especificado. " ++
    "Idioma: " ++ language ++ ". " ++
    "Evita generar documentos estructurados o encabezados a menos que se solicite explícitamente."
  else
    "Eres un asistente de IA especializado en la redacción de documentos profesionales, precisos y bien estructurados. " ++
    "Tu objetivo es generar contenido que sea claro, conciso y adaptado al propósito del documento. " ++
    "Genera el contenido en " ++ language ++ ". " ++
    LEVEL_INSTRUCTIONS level ++ " " ++
    "Sigue estas reglas para estructurar el documento:\n" ++
    "- **Organización Clara y Lógica**: Organiza el contenido en secciones bien diferenciadas con subtítulos claros (#, ##, etc.). " ++
    "Asegúrate de que cada sección siga un flujo coherente con transiciones suaves.\n" ++
    "- **Introducción Ampliada**: Comienza con una **Introducción** que dé una visión general del tema, explique su contexto y su relevancia, preparando al lector para los puntos principales.\n" ++
    "- **Contenido Detallado y Ejemplos Prácticos**: En las secciones principales, proporciona información detallada e incluye ejemplos prácticos, casos de uso o datos ficticios realistas.\n" ++
    "- **Conclusión Clara y Concisa**: Termina con una **Conclusión** que resuma los puntos clave y, si corresponde, proponga futuras líneas de investigación o acción.\n" ++
    "- Usa un tono formal y profesional, evitando repeticiones innecesarias.\n" ++
    "- Usa listas con viñetas (\x27-\x27) para enumerar elementos cuando sea necesario.\n" ++
    "- Evita jerga innecesaria y asegúrate de que el lenguaje sea accesible para un público profesional.\n" ++
    history_summary ++ "\n" ++ context_summary ++
    level_structure level ++
    (if level == .medio || level == .profesional then heading_reminder else "")

/-- The full message list of `generate` (document_generator.py lines 204-207):
system message (with the optional template appendix) followed by the history
and the user turn. -/
def assemble_messages (prompt template : String) (level : Level)
    (language : String) (history : List Message) (ctx : SessionCtx)
    (is_conv : Bool) : List Message :=
  let history_summary := if !is_conv then summarize_history history else ""
  let context_summary :=
    if optTruthy ctx.last_document && !is_conv then context_block ctx else ""
  let sys0 := build_system_message is_conv level language history_summary context_summary
  let sys :=
    if (alookup template TEMPLATES).isSome && !is_conv then
      sys0 ++ " Usa esta plantilla como base:\n" ++ (alookup template TEMPLATES).getD ""
    else sys0
  ⟨"system", sys⟩ :: (history ++ [⟨"user", prompt⟩])

/-- The corrective clause appended to the user turn before the single retry
(document_generator.py line 227). -/
def retry_clause : String :=
  "\nPor favor, asegúrate de incluir al menos un encabezado (#, ##) en el contenido y seguir la estructura solicitada según el nivel."

/-- In-place mutation `messages[-1]["content"] += clause`. -/
def appendToLastContent (ms : List Message) (clause : String) : List Message :=
  match ms with
  | [] => []
  | [m] => [⟨m.role, m.content ++ clause⟩]
  | m :: rest => m :: appendToLastContent rest clause

/-! ## The generation orchestrator (document_generator.py, `generate`) -/

/-- Mutable state touched by `generate`: the TTL response cache and the
process-wide `conversation_context` map.  Entry expiry/eviction of the
bounded TTL cache is not time-modelled; a key present in `cache` models a
live entry. -/
structure GenState where
  cache : List (CacheKey × String)
  context : List (String × SessionCtx)
deriving DecidableEq

/-- One completion request issued to the model provider: the message list and
the `max_tokens` budget (the model name and temperature are constants in the
source). -/
structure CallRec where
  messages : List Message
  max_tokens : Nat
deriving DecidableEq, Repr

/-- Result of a `generate` call together with its externally visible effects:
the final state, the completion requests issued (in order), and how many
times `validate_generated_text` ran. -/
structure GenOut where
  result : Except String (String × Bool)
  state : GenState
  calls : List CallRec
  validatorRuns : Nat

/-- Context update performed on success (document_generator.py
lines 239-248); skipped for conversational turns.  The Python code mutates
the six fields of the existing per-session dictionary; the model shadows the
entry, with `alookup` returning the newest binding. -/
def ctxAfterSuccess (context1 : List (String × SessionCtx)) (session_id : String)
    (text prompt doc_type template : String) (level : Level) (language : String)
    (is_conv : Bool) : List (String × SessionCtx) :=
  if is_conv then context1
  else
    (session_id,
      ⟨some text, some prompt, some doc_type, some template,
       some level.name, some language⟩) :: context1

/-- `DocumentGenerator.generate` (document_generator.py lines 104-265).
`llm n` is the trimmed-later response text of the `n`-th completion call of
this invocation; the provider is modelled as always answering (the
authentication / rate-limit / connectivity exception arms are not reachable
in this model and are not the subject of any claim). -/
def generate (llm : Nat → String) (prompt doc_type template : String)
    (fields : List (String × String)) (level : Level) (language : String)
    (history : List Message) (session_id : String) (st : GenState) : GenOut :=
  let is_conv := is_conversational_prompt prompt
  let context1 :=
    if (alookup session_id st.context).isSome then st.context
    else (session_id, SessionCtx.empty) :: st.context
  let ctx := (alookup session_id context1).getD SessionCtx.empty
  let messages := assemble_messages prompt template level language history ctx is_conv
  let cache_key := generate_cache_key prompt doc_type template fields level history
  let max_tokens := if is_conv then 200 else level.maxTokens
  match alookup cache_key st.cache with
  | some cached =>
    { result := .ok (cached, is_conv), state := ⟨st.cache, context1⟩,
      calls := [], validatorRuns := 0 }
  | none =>
    let text1 := pyStripS (llm 0)
    let val1 := validate_generated_text text1 level is_conv
    if !val1.1 && !is_conv then
      let messages2 := appendToLastContent messages retry_clause
      let text2 := pyStripS (llm 1)
      let val2 := validate_generated_text text2 level is_conv
      if !val2.1 then
        { result := .error ("Error al generar el texto: Contenido generado no válido tras reintento: " ++ val2.2),
          state := ⟨st.cache, context1⟩,
          calls := [⟨messages, max_tokens⟩, ⟨messages2, max_tokens⟩],
          validatorRuns := 2 }
      else
        { result := .ok (text2, is_conv),
          state := ⟨(cache_key, text2) :: st.cache,
                    ctxAfterSuccess context1 session_id text2 prompt doc_type template level language is_conv⟩,
          calls := [⟨messages, max_tokens⟩, ⟨messages2, max_tokens⟩],
          validatorRuns := 2 }
    else
      { result := .ok (text1, is_conv),
        state := ⟨(cache_key, text1) :: st.cache,
                  ctxAfterSuccess context1 session_id text1 prompt doc_type template level language is_conv⟩,
        calls := [⟨messages, max_tokens⟩],
        validatorRuns := 1 }

/-! ## Chart directive detection (utils.py lines 168-190 and 350-372)

Both rich-document backends run the same pre-pass over all (stripped) lines
before block parsing: a case-insensitive containment test for the two chart
phrases; on a hit the text after `"con datos:"` is split on `","` and each
pair on `":"`, the values going through `float(...)`.  A failure inside the
pair dictionary comprehension is caught and sets the chart data to `None`;
the indexing `line.split("con datos:")[1]` itself is *outside* the `try` and
raises (it fails when the phrase matched only case-insensitively), modelled
by the `Except` error. -/

inductive ChartType
  | bar
  | line
deriving DecidableEq, Repr

def digitsNat (ds : List Char) : Nat :=
  ds.foldl (fun n c => n * 10 + (c.toNat - 48)) 0

/-- Python `float(s)` on an already-stripped string, for the decimal forms
`[+|-]digits[.digits]` / `[+|-].digits` / `[+|-]digits.` (scientific
notation, `inf`/`nan` and digit underscores are not modelled; every input
exercised by a claim is plain decimal or non-numeric).  Returns `none` where
`float` raises `ValueError`. -/
def parseFloatQ (s0 : List Char) : Option ℚ :=
  let neg : Bool := isPfx ['-'] s0
  let s : List Char := if isPfx ['-'] s0 || isPfx ['+'] s0 then s0.drop 1 else s0
  match splitOnChar '.' s with
  | [ip] =>
    if !ip.isEmpty && ip.all Char.isDigit then
      some (if neg then -(digitsNat ip : ℚ) else (digitsNat ip : ℚ))
    else none
  | [ip, fp] =>
    if ip.all Char.isDigit && fp.all Char.isDigit && !(ip.isEmpty && fp.isEmpty) then
      some (if neg then
              -((digitsNat ip : ℚ) + (digitsNat fp : ℚ) / ((10 : ℚ) ^ fp.length))
            else (digitsNat ip : ℚ) + (digitsNat fp : ℚ) / ((10 : ℚ) ^ fp.length))
    else none
  | _ => none

/-- Insertion into the chart-data dictionary: Python dict comprehensions keep
insertion order and let a duplicate key overwrite in place. -/
def dictUpsert (m : List (List Char × ℚ)) (k : List Char) (v : ℚ) :
    List (List Char × ℚ) :=
  match m with
  | [] => [(k, v)]
  | (a, b) :: t => if a = k then (k, v) :: t else (a, b) :: dictUpsert t k v

/-- The dictionary comprehension
`{pair.split(":")[0].strip(): float(pair.split(":")[1].strip()) for pair in data_pairs}`:
any missing `":"` (IndexError) or non-numeric value (ValueError) aborts the
whole comprehension, which the surrounding `try` converts to `None`. -/
def parseChartPairs (seg : List Char) : Option (List (List Char × ℚ)) :=
  (splitOnChar ',' seg).foldlM
    (fun acc pair =>
      let parts := splitOnChar ':' pair
      match parts.get? 1 with
      | none => none
      | some v =>
        match parseFloatQ (pyStrip v) with
        | none => none
        | some q => some (dictUpsert acc (pyStrip (parts.headD [])) q))
    []

/-- State of the chart pre-pass: the `chart_type` and `chart_data` variables
(both start as `None`). -/
structure ChartScan where
  ctype : Option ChartType
  cdata : Option (List (List Char × ℚ))
deriving DecidableEq, Repr

def barPhrase : List Char := "gráfico de barras con datos:".toList
def linePhrase : List Char := "gráfico de líneas con datos:".toList
def conDatos : List Char := "con datos:".toList

/-- Processing of one line by the chart pre-pass. -/
def chartStep (st : ChartScan) (line0 : List Char) : Except Unit ChartScan :=
  let line := pyStrip line0
  if hasInfixL (pyLower line) barPhrase then
    match (splitOnSub conDatos line).get? 1 with
    | none => .error ()
    | some seg => .ok ⟨some .bar, parseChartPairs (pyStrip seg)⟩
  else if hasInfixL (pyLower line) linePhrase then
    match (splitOnSub conDatos line).get? 1 with
    | none => .error ()
    | some seg => .ok ⟨some .line, parseChartPairs (pyStrip seg)⟩
  else .ok st

/-- The full pre-pass over all lines. -/
def detectChart (lines : List (List Char)) : Except Unit ChartScan :=
  lines.foldlM chartStep ⟨none, none⟩

/-- `true` when the line contains (case-insensitively) one of the two chart
directives, i.e. when `chartStep` overwrites the scan state. -/
def chartLineTriggered (line0 : List Char) : Bool :=
  hasInfixL (pyLower (pyStrip line0)) barPhrase ||
  hasInfixL (pyLower (pyStrip line0)) linePhrase

/-! ## PDF flow-document backend (utils.py, `parse_markdown_for_pdf`) -/

inductive PStyle
  | heading1
  | heading2
  | heading3
  | bodyText
deriving DecidableEq, Repr

/-- Flowables appended to the reportlab `story` list.  `image` is the logo
image; a chart image keeps the data it was drawn from. -/
inductive PdfElem
  | para (style : PStyle) (text : List Char)
  | spacer (w h : Nat)
  | table (rows : List (List (List Char)))
  | image
  | chartImage (ctype : ChartType) (data : List (List Char × ℚ))
deriving DecidableEq, Repr

/-- Parser state of the main loop of `parse_markdown_for_pdf`
(utils.py lines 193-240): `in_list`, `list_level` and the pending
`table_data` accumulator. -/
structure PdfParseState where
  in_list : Bool
  list_level : Nat
  table_data : List (List (List Char))
deriving DecidableEq, Repr

def pdfInit : PdfParseState := ⟨false, 0, []⟩

def anchorName (i : Nat) : List Char := "section_".toList ++ natChars i

def anchorPara (i : Nat) : PdfElem :=
  .para .bodyText ("<a name=\"section_".toList ++ natChars i ++ "\"/>".toList)

def linkPara (anchor title : List Char) : PdfElem :=
  .para .bodyText ("<link href=\"#".toList ++ anchor ++
    "\" color=\"blue\">".toList ++ title ++ "</link>".toList)

/-- One iteration of the `for i, line in enumerate(lines)` loop of
`parse_markdown_for_pdf`: returns the new state, the flowables appended and
the `toc` entries `(title, anchor)` recorded (the tuple's middle component
`len(story)` is recorded by the source but never read and is omitted). -/
def pdf_step (i : Nat) (st : PdfParseState) (line0 : List Char) :
    PdfParseState × List PdfElem × List (List Char × List Char) :=
  let line := pyStrip line0
  if line.isEmpty then
    (st, [.spacer 1 12], [])
  else if isPfx "# ".toList line then
    ({st with in_list := false},
     [anchorPara i, .para .heading1 (line.drop 2)],
     [(line.drop 2, anchorName i)])
  else if isPfx "## ".toList line then
    ({st with in_list := false},
     [anchorPara i, .para .heading2 (line.drop 3)],
     [(line.drop 3, anchorName i)])
  else if isPfx "### ".toList line then
    ({st with in_list := false},
     [anchorPara i, .para .heading3 (line.drop 4)],
     [(line.drop 4, anchorName i)])
  else if isPfx "- ".toList line || isPfx "* ".toList line then
    ({st with in_list := true},
     [.para .bodyText (List.replicate (2 * st.list_level) ' ' ++
       "• ".toList ++ line.drop 2)],
     [])
  else if isPfx "  - ".toList line || isPfx "  * ".toList line then
    ({st with in_list := true, list_level := 1},
     [.para .bodyText ("  ◦ ".toList ++ line.drop 4)],
     [])
  else if isPfx "|".toList line then
    let cells := ((splitOnChar '|' line).drop 1).dropLast.map pyStrip
    if !cells.isEmpty && cells.all (fun c => !c.isEmpty) then
      ({st with table_data := st.table_data ++ [cells]}, [], [])
    else
      (st, [], [])
  else
    let tElems : List PdfElem :=
      if st.table_data.isEmpty then [] else [.table st.table_data]
    let lElems : List PdfElem :=
      if st.in_list then [.spacer 1 12] else []
    ({in_list := false, list_level := if st.in_list then 0 else st.list_level,
      table_data := []},
     tElems ++ lElems ++ [.para .bodyText line], [])

/-- The whole content loop plus the trailing pending-table flush
(utils.py lines 193-251). -/
def pdf_run (i : Nat) (st : PdfParseState) :
    List (List Char) → List PdfElem × List (List Char × List Char)
  | [] => ((if st.table_data.isEmpty then [] else [.table st.table_data]), [])
  | l :: ls =>
    let s := pdf_step i st l
    let r := pdf_run (i + 1) s.1 ls
    (s.2.1 ++ r.1, s.2.2 ++ r.2)

/-- `parse_markdown_for_pdf` (utils.py lines 131-273).  `tr` is the external
translation collaborator (`translate_text · language`); `logoExists` models
`logo_path` naming an existing file.  The returned list is the reportlab
`story`: logo, parsed body, flushed trailing table, chart image, with the
table of contents (title plus one link per collected heading, each inserted
at index 1, hence in reverse document order) and a spacer inserted at the
front.  Style configuration and the page header/footer callback draw outside
the story and are not modelled. -/
def parse_markdown_for_pdf (tr : List Char → List Char) (text : String)
    (logoExists : Bool) : Except Unit (List PdfElem) :=
  let lines := splitOnChar '\n' text.toList
  match detectChart lines with
  | .error e => .error e
  | .ok scan =>
    let logoPart : List PdfElem := if logoExists then [.image, .spacer 1 20] else []
    let body := pdf_run 0 pdfInit lines
    let chartPart : List PdfElem :=
      match scan.cdata, scan.ctype with
      | some d, some ct => if d.isEmpty then [] else [.chartImage ct d, .spacer 1 20]
      | _, _ => []
    let story := logoPart ++ body.1 ++ chartPart
    let story1 := PdfElem.para .heading1 (tr "Índice".toList) :: story
    let story2 :=
      body.2.foldl (fun acc t => acc.insertIdx 1 (linkPara t.2 t.1)) story1
    .ok (story2.insertIdx (body.2.length + 1) (.spacer 1 20))

/-! ## Word-processing backends

Two distinct DOCX parsers exist in the sources.  `render` (document_generator.py
line 536) invokes the *method* `DocumentGenerator.parse_markdown_for_docx`
(document_generator.py lines 310-449); the *module function*
`utils.parse_markdown_for_docx` (utils.py lines 275-456) is never called by
`render`.  Both are embedded. -/

/-- A run of a DOCX paragraph built with per-run character formatting. -/
inductive DocxRun
  | plain (t : List Char)
  | boldR (t : List Char)
  | italicR (t : List Char)
deriving DecidableEq, Repr

/-- Content blocks added to the DOCX document body. -/
inductive DocxBlock
  | heading1 (text : List Char)
  | heading2 (text : List Char)
  | heading3 (text : List Char)
  | listItem (level : Nat) (text : List Char)
  | table (rows : List (List (List Char)))
  | emptyPara
  | paraPlain (text : List Char)
  | paraRuns (runs : List DocxRun)
  | logo
  | tocField (title : List Char)
  | chartPicture (ctype : ChartType) (data : List (List Char × ℚ))
deriving DecidableEq, Repr

/-- `DocumentGenerator._add_table_to_docx` appends the table followed by a
spacing paragraph. -/
def tableBlocksD (rows : List (List (List Char))) : List DocxBlock :=
  [.table rows, .emptyPara]

/-- Parser state of the method `DocumentGenerator.parse_markdown_for_docx`
(document_generator.py lines 372-379). -/
structure DocxState where
  sec : Nat
  sub : Nat
  in_list : Bool
  list_level : Nat
  in_table : Bool
  table_data : List (List (List Char))
deriving DecidableEq, Repr

def docxInit : DocxState := ⟨0, 0, false, 0, false, []⟩

/-- One iteration of the line loop of the method
`DocumentGenerator.parse_markdown_for_docx` (document_generator.py
lines 381-445). -/
def docx_step (st : DocxState) (line0 : List Char) : DocxState × List DocxBlock :=
  let line := pyStrip line0
  if line.isEmpty then
    if st.in_table then
      if st.table_data.isEmpty then (st, [])
      else ({st with in_table := false, table_data := []}, tableBlocksD st.table_data)
    else (st, [])
  else if isPfx "# ".toList line then
    ({st with sec := st.sec + 1, sub := 0, in_list := false},
     [.heading1 (natChars (st.sec + 1) ++ ". ".toList ++ pyStrip (line.drop 2))])
  else if isPfx "## ".toList line then
    ({st with sub := st.sub + 1, in_list := false},
     [.heading2 (natChars st.sec ++ ['.'] ++ natChars (st.sub + 1) ++ [' '] ++
       pyStrip (line.drop 3))])
  else if isPfx "### ".toList line then
    ({st with in_list := false}, [.heading3 (pyStrip (line.drop 4))])
  else if isPfx "- ".toList line || isPfx "* ".toList line then
    let st1 := if !st.in_list then {st with in_list := true, list_level := 1} else st
    (st1, [.listItem st1.list_level (pyStrip (line.drop 2))])
  else if isPfx "  - ".toList line || isPfx "  * ".toList line then
    ({st with in_list := true, list_level := 2},
     [.listItem 2 (pyStrip (line.drop 4))])
  else
    let st2 := {st with in_list := false, list_level := 0}
    if isPfx "|".toList line then
      let cells := ((splitOnChar '|' line).map pyStrip).filter (fun c => !c.isEmpty)
      if !cells.isEmpty then
        ({st2 with in_table := true, table_data := st2.table_data ++ [cells]}, [])
      else ({st2 with in_table := true}, [])
    else if st2.in_table then
      if st2.table_data.isEmpty then (st2, [.paraPlain line])
      else
        ({st2 with in_table := false, table_data := []},
         tableBlocksD st2.table_data ++ [.paraPlain line])
    else (st2, [.paraPlain line])

/-- The whole line loop of the method plus its trailing pending-table flush
(document_generator.py lines 447-449). -/
def docx_run (st : DocxState) : List (List Char) → List DocxBlock
  | [] => if st.in_table && !st.table_data.isEmpty then tableBlocksD st.table_data else []
  | l :: ls =>
    let s := docx_step st l
    s.2 ++ docx_run s.1 ls

/-- The method `DocumentGenerator.parse_markdown_for_docx`
(document_generator.py lines 310-449): optional centered logo paragraph,
then the parsed body.  Style registration only configures formatting and is
not modelled. -/
def parse_markdown_for_docx (logoExists : Bool) (text : String) : List DocxBlock :=
  (if logoExists then [DocxBlock.logo] else []) ++
  docx_run docxInit (splitOnChar '\n' text.toList)

/-! ### Inline-emphasis splitting of `utils.parse_markdown_for_docx`

`re.split(r'(\*\*.*?\*\*|\*.*?\*)', line)` scans for the earliest match,
trying the bold alternative before the italic one at each position, with
non-greedy content (`.` cannot cross a newline, and a line contains none).
Matches are kept in the part list, with (possibly empty) gap strings between
them. -/

/-- Split at the first `'*'`: `some (before, after)`. -/
def firstStarSplit : List Char → Option (List Char × List Char)
  | [] => none
  | '*' :: r => some ([], r)
  | c :: r => (firstStarSplit r).map (fun p => (c :: p.1, p.2))

/-- Split at the first `"**"`: `some (before, after)`. -/
def firstDStarSplit : List Char → Option (List Char × List Char)
  | [] => none
  | '*' :: '*' :: r => some ([], r)
  | c :: r => (firstDStarSplit r).map (fun p => (c :: p.1, p.2))

/-- The splitting scan (fuel-driven; `line.length + 1` fuel always suffices
since every step consumes at least one character). -/
def splitEmphAux : Nat → List Char → List Char → List (List Char)
  | 0, acc, s => [acc.reverse ++ s]
  | _ + 1, acc, [] => [acc.reverse]
  | f + 1, acc, c :: cs =>
    if c = '*' then
      match cs with
      | '*' :: rest =>
        match firstDStarSplit rest with
        | some p =>
          acc.reverse :: ('*' :: '*' :: (p.1 ++ ['*', '*'])) :: splitEmphAux f [] p.2
        | none => acc.reverse :: ['*', '*'] :: splitEmphAux f [] rest
      | _ =>
        match firstStarSplit cs with
        | some p => acc.reverse :: ('*' :: (p.1 ++ ['*'])) :: splitEmphAux f [] p.2
        | none => splitEmphAux f (c :: acc) cs
    else splitEmphAux f (c :: acc) cs

/-- Part classification of utils.py lines 431-439: `**…**` parts become bold
runs with the 2+2 marker characters stripped, `*…*` parts italic runs with
the 1+1 markers stripped, anything else a plain run. -/
def partToRun (part : List Char) : DocxRun :=
  if isPfx "**".toList part && isSfx "**".toList part then
    .boldR ((part.drop 2).take (part.length - 4))
  else if isPfx "*".toList part && isSfx "*".toList part then
    .italicR ((part.drop 1).take (part.length - 2))
  else .plain part

/-- The runs emitted for one paragraph line by `utils.parse_markdown_for_docx`
(utils.py lines 428-439). -/
def emphasis_runs (line : List Char) : List DocxRun :=
  (splitEmphAux (line.length + 1) [] line).map partToRun

/-- Parser state of the module function `utils.parse_markdown_for_docx`
(utils.py lines 344-347; it has no `in_table` flag). -/
structure UDocxState where
  in_list : Bool
  list_level : Nat
  table_data : List (List (List Char))
deriving DecidableEq, Repr

/-- One iteration of the line loop of `utils.parse_markdown_for_docx`
(utils.py lines 375-439). -/
def utils_docx_step (st : UDocxState) (line0 : List Char) :
    UDocxState × List DocxBlock :=
  let line := pyStrip line0
  if line.isEmpty then (st, [.emptyPara])
  else if isPfx "# ".toList line then
    ({st with in_list := false}, [.heading1 (line.drop 2)])
  else if isPfx "## ".toList line then
    ({st with in_list := false}, [.heading2 (line.drop 3)])
  else if isPfx "### ".toList line then
    ({st with in_list := false}, [.heading3 (line.drop 4)])
  else if isPfx "- ".toList line || isPfx "* ".toList line then
    ({st with in_list := true, list_level := 0},
     [.listItem (if st.list_level == 0 then 1 else 2) (line.drop 2)])
  else if isPfx "  - ".toList line || isPfx "  * ".toList line then
    ({st with in_list := true, list_level := 1}, [.listItem 2 (line.drop 4)])
  else if isPfx "|".toList line then
    let cells := ((splitOnChar '|' line).drop 1).dropLast.map pyStrip
    if !cells.isEmpty && cells.all (fun c => !c.isEmpty) then
      ({st with table_data := st.table_data ++ [cells]}, [])
    else (st, [])
  else
    let tBlocks : List DocxBlock :=
      if st.table_data.isEmpty then [] else [.table st.table_data, .emptyPara]
    let lBlocks : List DocxBlock :=
      if st.in_list then [.emptyPara] else []
    ({in_list := false, list_level := if st.in_list then 0 else st.list_level,
      table_data := []},
     tBlocks ++ lBlocks ++ [.paraRuns (emphasis_runs line)])

/-- The whole line loop of `utils.parse_markdown_for_docx`; note that this
variant never flushes a table still pending at end of input. -/
def utils_docx_run (st : UDocxState) : List (List Char) → List DocxBlock
  | [] => []
  | l :: ls =>
    let s := utils_docx_step st l
    s.2 ++ utils_docx_run s.1 ls

/-- The module function `utils.parse_markdown_for_docx` (utils.py
lines 275-456): empty text raises; otherwise optional logo (picture plus
empty paragraph), the field-based table-of-contents placeholder (title plus
empty paragraph), the parsed body, and the optional chart picture.  The
header/footer text set on the section object is not part of the body block
list. -/
def utils_parse_markdown_for_docx (tr : List Char → List Char) (text : String)
    (logoExists : Bool) : Except Unit (List DocxBlock) :=
  if text = "" then .error ()
  else
    let lines := splitOnChar '\n' text.toList
    match detectChart lines with
    | .error e => .error e
    | .ok scan =>
      let chartPart : List DocxBlock :=
        match scan.cdata, scan.ctype with
        | some d, some ct => if d.isEmpty then [] else [.chartPicture ct d, .emptyPara]
        | _, _ => []
      .ok ((if logoExists then [DocxBlock.logo, .emptyPara] else []) ++
        [.tocField (tr "Índice".toList), .emptyPara] ++
        utils_docx_run ⟨false, 0, []⟩ lines ++ chartPart)

/-! ## `render` dispatch (document_generator.py lines 476-696)

For `doc_type == 'pdf'`, `render` builds the story with
`utils.parse_markdown_for_pdf` (line 526); for `doc_type == 'docx'` it calls
the method `self.parse_markdown_for_docx` (line 536). -/

def render_pdf (tr : List Char → List Char) (text : String) (logoExists : Bool) :
    Except Unit (List PdfElem) :=
  parse_markdown_for_pdf tr text logoExists

def render_docx (text : String) (logoExists : Bool) : List DocxBlock :=
  parse_markdown_for_docx logoExists text

/-! ## Translation helper (utils.py, `translate_text`) -/

/-- `translate_text` (utils.py lines 51-62).  `oracle text target` models the
external `GoogleTranslator(source='es', target=target).translate(text)`
call: `.error ()` is a raised exception, `.ok none` a `None` result,
`.ok (some s)` a returned string.  `if not translated` treats both `None`
and the empty string as falsy. -/
def translate_text (oracle : String → String → Except Unit (Option String))
    (text target_lang : String) : String :=
  if target_lang = "es" then text
  else
    match oracle text target_lang with
    | .error _ => text
    | .ok none => text
    | .ok (some t) => if t = "" then text else t

/-! # Theorems -/

/-! ## Claim C3 — content validator -/

theorem hasHashSpace_iff (l : List Char) :
    hasHashSpace l = true ↔
      ∃ pre c post, l = pre ++ '#' :: ' ' :: c :: post ∧ c ≠ '\n' := by
  induction l with
  | nil => simp [hasHashSpace]
  | cons x xs ih =>
    simp only [hasHashSpace, Bool.or_eq_true, Bool.and_eq_true, beq_iff_eq, ih]
    constructor
    · rintro (⟨rfl, hm⟩ | ⟨pre, c, post, rfl, hc⟩)
      · rcases xs with _ | ⟨y, _ | ⟨c, r⟩⟩
        · exact absurd hm (by simp [hashHeadMatch])
        · exact absurd hm (by simp [hashHeadMatch])
        · simp only [hashHeadMatch, Bool.and_eq_true, beq_iff_eq, bne_iff_ne] at hm
          exact ⟨[], c, r, by rw [hm.1]; rfl, hm.2⟩
      · exact ⟨x :: pre, c, post, rfl, hc⟩
    · rintro ⟨pre, c, post, heq, hc⟩
      cases pre with
      | nil =>
        simp only [List.nil_append, List.cons.injEq] at heq
        left
        refine ⟨heq.1, ?_⟩
        rw [heq.2]
        simp [hashHeadMatch, hc]
      | cons p ps =>
        simp only [List.cons_append, List.cons.injEq] at heq
        right
        exact ⟨ps, c, post, heq.2, hc⟩

def mkWords (n : Nat) : String := String.intercalate " " (List.replicate n "palabra")

/-- A 58-word text whose only heading marker sits in the middle of its single
line: no line begins with `# `, `## ` or `### `, yet the validator's regex
finds the interior `"# titulo"`. -/
def c3text : String := mkWords 55 ++ " y # titulo"

/-- The claim's heading condition, written from its words: some line of the
text begins with `# `, `## ` or `### `. -/
def claim_heading_line (text : String) : Bool :=
  (splitOnChar '\n' text.toList).any
    (fun l => isPfx "# ".toList l || isPfx "## ".toList l || isPfx "### ".toList l)

/-- C3 counterexample: `c3text` has 58 words (within all bounds), no line of
it begins with a heading prefix, the level is medio and the call is
non-conversational — so by the claim the validator must report invalid
("missing required heading") — yet `validate_generated_text` accepts it,
because its regex `^.*\n*(# .+|## .+|### .+)` also matches a `"# "` in the
middle of a line. -/
theorem C3_counterexample :
    (validate_generated_text c3text Level.medio false).1 = true ∧
    claim_heading_line c3text = false ∧
    50 ≤ wordCount c3text.toList ∧ wordCount c3text.toList ≤ 1000 := by decide

/-- A 40-word non-heading text. -/
def texto40 : String := mkWords 40

/-- C3 amended: the validator rejects exactly when the word count exceeds the
level ceiling (500/1000/2000), or the word count is below 50 on a
non-conversational call, or the level is medio/profesional, the call is
non-conversational and the text nowhere contains `'#'` followed by `' '` and
a further non-newline character — the heading pattern may occur anywhere
inside a line, not only at line start.  In particular the 40-word text is
invalid ("too short") only when non-conversational. -/
theorem C3_amended_validator_characterization :
    (∀ (text : String) (level : Level) (conv : Bool),
      (validate_generated_text text level conv).1 = false ↔
        (wordCount text.toList > level.maxWords ∨
         (wordCount text.toList < 50 ∧ conv = false) ∨
         ((level = .medio ∨ level = .profesional) ∧ conv = false ∧
          ¬ ∃ pre c post, text.toList = pre ++ '#' :: ' ' :: c :: post ∧ c ≠ '\n'))) ∧
    validate_generated_text texto40 Level.basico false =
      (false, "El contenido es demasiado corto (menos de 50 palabras).") ∧
    (validate_generated_text texto40 Level.basico true).1 = true := by
  refine ⟨?_, by decide, by decide⟩
  intro text level conv
  unfold validate_generated_text
  by_cases h1 : wordCount text.toList > level.maxWords
  · rw [if_pos h1]
    exact ⟨fun _ => Or.inl h1, fun _ => rfl⟩
  rw [if_neg h1]
  by_cases h2 : (decide (wordCount text.toList < 50) && !conv) = true
  · rw [if_pos h2]
    simp only [Bool.and_eq_true, Bool.not_eq_true', decide_eq_true_eq] at h2
    exact ⟨fun _ => Or.inr (Or.inl h2), fun _ => rfl⟩
  rw [if_neg h2]
  by_cases h3 : ((level == Level.medio || level == Level.profesional) && !conv &&
      !hasHashSpace text.toList) = true
  · rw [if_pos h3]
    simp only [Bool.and_eq_true, Bool.or_eq_true, beq_iff_eq, Bool.not_eq_true',
      decide_eq_true_eq] at h3
    refine ⟨fun _ => Or.inr (Or.inr ⟨h3.1.1, h3.1.2, ?_⟩), fun _ => rfl⟩
    rw [← hasHashSpace_iff]
    simp only [Bool.not_eq_true]
    exact h3.2
  rw [if_neg h3]
  simp only [Bool.and_eq_true, Bool.not_eq_true', decide_eq_true_eq, not_and,
    Bool.or_eq_true, beq_iff_eq] at h2 h3
  constructor
  · intro hfalse
    exact absurd hfalse (by simp)
  · rintro (hc | ⟨hwc, hcv⟩ | ⟨hlv, hcv, hnohash⟩)
    · exact absurd hc h1
    · exact absurd hcv (h2 hwc)
    · exfalso
      have hhs : hasHashSpace text.toList = false := by
        cases hb : hasHashSpace text.toList with
        | false => rfl
        | true => exact absurd ((hasHashSpace_iff _).1 hb) hnohash
      exact (h3 ⟨hlv, hcv⟩) hhs

/-! ## Claim C9 — translation fallback -/

/-- C9: `translate_text` is a total function (never raises); with target
language `es` it returns the input unchanged; when the external call raises,
returns `None` or returns the empty string, it falls back to the original
input; hence for non-empty input the result is never empty. -/
theorem C9_translate_never_empty
    (oracle : String → String → Except Unit (Option String))
    (text target_lang : String) :
    translate_text oracle text "es" = text ∧
    (oracle text target_lang = .error () → translate_text oracle text target_lang = text) ∧
    (oracle text target_lang = .ok none → translate_text oracle text target_lang = text) ∧
    (oracle text target_lang = .ok (some "") → translate_text oracle text target_lang = text) ∧
    (text ≠ "" → translate_text oracle text target_lang ≠ "") := by
  refine ⟨by simp [translate_text], ?_, ?_, ?_, ?_⟩
  · intro h
    unfold translate_text
    split
    · rfl
    · rw [h]
  · intro h
    unfold translate_text
    split
    · rfl
    · rw [h]
  · intro h
    unfold translate_text
    split
    · rfl
    · rw [h]
      simp
  · intro hne
    unfold translate_text
    split
    · exact hne
    · cases ho : oracle text target_lang with
      | error e => exact hne
      | ok t =>
        cases t with
        | none => exact hne
        | some s =>
          by_cases hs : s = ""
          · simp [hs, hne]
          · simp [hs]

/-- C9 witness at concrete inputs: a raising translator, an empty-result
translator and the identity-language case all fall back to the original
banner strings. -/
theorem C9_witness :
    translate_text (fun _ _ => .error ()) "Documento Generado Automáticamente - IA Generador" "en" =
      "Documento Generado Automáticamente - IA Generador" ∧
    translate_text (fun _ _ => .ok (some "")) "Índice" "fr" = "Índice" ∧
    translate_text (fun _ _ => .ok none) "Página 1" "de" = "Página 1" ∧
    translate_text (fun _ _ => .ok (some "ignored")) "Índice" "es" = "Índice" := by
  refine ⟨?_, ?_, ?_, ?_⟩
  · exact (C9_translate_never_empty (fun _ _ => .error ())
      "Documento Generado Automáticamente - IA Generador" "en").2.1 rfl
  · exact (C9_translate_never_empty (fun _ _ => .ok (some "")) "Índice" "fr").2.2.2.1 rfl
  · exact (C9_translate_never_empty (fun _ _ => .ok none) "Página 1" "de").2.2.1 rfl
  · exact (C9_translate_never_empty (fun _ _ => .ok (some "ignored")) "Índice" "es").1

/-! ## Claim C2 — cache-hit short circuit -/

/-- Any successful `generate` leaves its returned text in the cache under the
request fingerprint (both on a cache hit and after a fresh generation). -/
theorem generate_ok_cache (llm : Nat → String)
    (prompt doc_type template language session_id : String)
    (fields : List (String × String)) (level : Level) (history : List Message)
    (st : GenState) (t : String) (b : Bool)
    (h : (generate llm prompt doc_type template fields level language history session_id st).result = .ok (t, b)) :
    alookup (generate_cache_key prompt doc_type template fields level history)
      (generate llm prompt doc_type template fields level language history session_id st).state.cache
      = some t := by
  simp only [generate] at h ⊢
  cases hc : alookup (generate_cache_key prompt doc_type template fields level history) st.cache with
  | some c =>
    simp only [hc] at h ⊢
    simp only [Except.ok.injEq, Prod.mk.injEq] at h
    rw [h.1]
  | none =>
    simp only [hc] at h ⊢
    split
    next hcond =>
      rw [if_pos hcond] at h
      split
      next hcond2 =>
        rw [if_pos hcond2] at h
        exact absurd h (by simp)
      next hcond2 =>
        rw [if_neg hcond2] at h
        simp only [Except.ok.injEq, Prod.mk.injEq] at h
        simp [alookup, h.1]
    next hcond =>
      rw [if_neg hcond] at h
      simp only [Except.ok.injEq, Prod.mk.injEq] at h
      simp [alookup, h.1]

/-- C2: a second `generate` call with identical
(prompt, doc type, template, fields, level, history) — hence an identical
fingerprint — issued while the first call's cache entry is still live
returns the cached text immediately: no completion request is issued
(`calls = []`), the validator is not run (`validatorRuns = 0`), and the state
(cache and session contexts, however they were mutated in between) is
returned untouched. -/
theorem C2_cache_hit_short_circuit (llm llm' : Nat → String)
    (prompt doc_type template language session_id : String)
    (fields : List (String × String)) (level : Level) (history : List Message)
    (st st' : GenState) (t : String) (b : Bool)
    (h1 : (generate llm prompt doc_type template fields level language history session_id st).result = .ok (t, b))
    (hlive : alookup (generate_cache_key prompt doc_type template fields level history) st'.cache =
             alookup (generate_cache_key prompt doc_type template fields level history)
               (generate llm prompt doc_type template fields level language history session_id st).state.cache)
    (hsess : (alookup session_id st'.context).isSome = true) :
    generate llm' prompt doc_type template fields level language history session_id st' =
      { result := .ok (t, is_conversational_prompt prompt), state := st',
        calls := [], validatorRuns := 0 } := by
  have hc : alookup (generate_cache_key prompt doc_type template fields level history) st'.cache = some t :=
    hlive.trans (generate_ok_cache llm prompt doc_type template language session_id
      fields level history st t b h1)
  simp only [generate, hc, hsess, if_true]

def c2llm : Nat → String := fun _ => "Texto de prueba"

def c2st : GenState := ⟨[], [("s1", SessionCtx.empty)]⟩

def c2out1 : GenOut := generate c2llm "hola" "texto" "" [] Level.basico "es" [] "s1" c2st

/-- The state before the second call: same live cache, but a SessionContext
mutated in between. -/
def c2mut : GenState :=
  ⟨c2out1.state.cache,
   [("s1", ⟨some "otro documento", some "otro prompt", some "pdf", some "informe",
            some "medio", some "en"⟩)]⟩

theorem C2_witness :
    generate (fun _ => "RESPUESTA NUEVA") "hola" "texto" "" [] Level.basico "es" [] "s1" c2mut =
      { result := .ok ("Texto de prueba", is_conversational_prompt "hola"), state := c2mut,
        calls := [], validatorRuns := 0 } :=
  C2_cache_hit_short_circuit c2llm (fun _ => "RESPUESTA NUEVA") "hola" "texto" "" "es" "s1"
    [] Level.basico [] c2st c2mut "Texto de prueba" true rfl rfl rfl

/-! ## Claim C4 — one retry, then hard error with no state change -/

theorem appendToLastContent_cons_ne (x : Message) (l : List Message) (c : String)
    (h : l ≠ []) : appendToLastContent (x :: l) c = x :: appendToLastContent l c := by
  cases l with
  | nil => exact absurd rfl h
  | cons y ys => rfl

theorem appendToLastContent_concat (l : List Message) (m : Message) (c : String) :
    appendToLastContent (l ++ [m]) c = l ++ [⟨m.role, m.content ++ c⟩] := by
  induction l with
  | nil => rfl
  | cons x xs ih =>
    rw [List.cons_append, appendToLastContent_cons_ne x (xs ++ [m]) c (by simp), ih,
      List.cons_append]

/-- The assembled message list always ends with the user turn. -/
theorem assemble_messages_getLast (prompt template : String) (level : Level)
    (language : String) (history : List Message) (ctx : SessionCtx) (b : Bool) :
    (assemble_messages prompt template level language history ctx b).getLast? =
      some ⟨"user", prompt⟩ := by
  show (Message.mk "system" _ :: (history ++ [Message.mk "user" prompt])).getLast? = _
  rw [← List.cons_append, List.getLast?_concat]

/-- Appending the corrective clause rewrites exactly the user turn. -/
theorem appendToLast_assemble_getLast (prompt template : String) (level : Level)
    (language : String) (history : List Message) (ctx : SessionCtx) (b : Bool)
    (c : String) :
    (appendToLastContent (assemble_messages prompt template level language history ctx b) c).getLast? =
      some ⟨"user", prompt ++ c⟩ := by
  show (appendToLastContent
      (Message.mk "system" _ :: (history ++ [Message.mk "user" prompt])) c).getLast? = _
  rw [← List.cons_append, appendToLastContent_concat, List.getLast?_concat]

/-- C4: on a non-conversational cache miss whose first generation fails
validation, exactly one retry is issued — the second completion request has
the corrective clause appended to the user turn's content and the same token
budget — and when the retried text also fails validation, `generate` returns
the hard error, writes no cache entry and leaves the session contexts
untouched (`state = st`). -/
theorem C4_retry_once_then_error (llm : Nat → String)
    (prompt doc_type template language session_id : String)
    (fields : List (String × String)) (level : Level) (history : List Message)
    (st : GenState)
    (hconv : is_conversational_prompt prompt = false)
    (hmiss : alookup (generate_cache_key prompt doc_type template fields level history) st.cache = none)
    (hsess : (alookup session_id st.context).isSome = true)
    (hv1 : (validate_generated_text (pyStripS (llm 0)) level false).1 = false)
    (hv2 : (validate_generated_text (pyStripS (llm 1)) level false).1 = false) :
    generate llm prompt doc_type template fields level language history session_id st =
      { result := .error ("Error al generar el texto: Contenido generado no válido tras reintento: " ++
          (validate_generated_text (pyStripS (llm 1)) level false).2),
        state := st,
        calls :=
          [⟨assemble_messages prompt template level language history
              ((alookup session_id st.context).getD SessionCtx.empty) false, level.maxTokens⟩,
           ⟨appendToLastContent
              (assemble_messages prompt template level language history
                ((alookup session_id st.context).getD SessionCtx.empty) false) retry_clause,
            level.maxTokens⟩],
        validatorRuns := 2 } ∧
    (assemble_messages prompt template level language history
        ((alookup session_id st.context).getD SessionCtx.empty) false).getLast? =
      some ⟨"user", prompt⟩ ∧
    (appendToLastContent
        (assemble_messages prompt template level language history
          ((alookup session_id st.context).getD SessionCtx.empty) false) retry_clause).getLast? =
      some ⟨"user", prompt ++ retry_clause⟩ := by
  refine ⟨?_, ?_, ?_⟩
  · simp only [generate, hconv, hmiss, hsess, if_true, hv1, Bool.not_false, Bool.not_true,
      Bool.and_true, Bool.false_and, hv2, if_false]
    rfl
  · exact assemble_messages_getLast prompt template level language history
      ((alookup session_id st.context).getD SessionCtx.empty) false
  · exact appendToLast_assemble_getLast prompt template level language history
      ((alookup session_id st.context).getD SessionCtx.empty) false retry_clause

def c4llm : Nat → String := fun _ => "demasiado corto"

def c4st : GenState := ⟨[], [("s9", SessionCtx.empty)]⟩

theorem C4_witness :
    (generate c4llm "Redacta un informe" "pdf" "" [] Level.basico "es" [] "s9" c4st).state = c4st ∧
    (generate c4llm "Redacta un informe" "pdf" "" [] Level.basico "es" [] "s9" c4st).calls.length = 2 ∧
    (generate c4llm "Redacta un informe" "pdf" "" [] Level.basico "es" [] "s9" c4st).result =
      .error ("Error al generar el texto: Contenido generado no válido tras reintento: El contenido es demasiado corto (menos de 50 palabras).") := by
  have h := C4_retry_once_then_error c4llm "Redacta un informe" "pdf" "" "es" "s9"
    [] Level.basico [] c4st (by decide) rfl rfl (by decide) (by decide)
  refine ⟨?_, ?_, ?_⟩
  · rw [h.1]
  · rw [h.1]
    rfl
  · rw [h.1]
    rfl

/-! ## Claim C10 — conversational turns never hit the validation-error path -/

/-- C10: with a conversational prompt, `generate` always returns `.ok`
(the validation hard-error path is unreachable), and on a cache miss —
regardless of what the validator reports about the generated text — the text
is returned as-is, exactly one completion request (with the 200-token
conversational budget) is issued, the text is written to the cache under the
request fingerprint, and the session contexts are left unchanged. -/
theorem C10_conversational_no_validation_error (llm : Nat → String)
    (prompt doc_type template language session_id : String)
    (fields : List (String × String)) (level : Level) (history : List Message)
    (st : GenState)
    (hconv : is_conversational_prompt prompt = true) :
    (∃ r, (generate llm prompt doc_type template fields level language history session_id st).result = .ok r) ∧
    (alookup (generate_cache_key prompt doc_type template fields level history) st.cache = none →
     (alookup session_id st.context).isSome = true →
     generate llm prompt doc_type template fields level language history session_id st =
       { result := .ok (pyStripS (llm 0), true),
         state := ⟨(generate_cache_key prompt doc_type template fields level history,
                    pyStripS (llm 0)) :: st.cache, st.context⟩,
         calls := [⟨assemble_messages prompt template level language history
             ((alookup session_id st.context).getD SessionCtx.empty) true, 200⟩],
         validatorRuns := 1 }) := by
  constructor
  · cases hc : alookup (generate_cache_key prompt doc_type template fields level history) st.cache with
    | some c =>
      exact ⟨(c, true), by simp only [generate, hc, hconv]⟩
    | none =>
      refine ⟨(pyStripS (llm 0), true), ?_⟩
      simp only [generate, hc, hconv, Bool.not_true, Bool.and_false, if_false]
      rfl
  · intro hmiss hsess
    simp only [generate, hmiss, hconv, hsess, if_true, Bool.not_true, Bool.and_false,
      if_false, ctxAfterSuccess]
    rfl

/-- 501 single-letter words: one more than the basic-level ceiling. -/
def c10text : String := "a a a a a a a a a a a a a a a a a a a a a a a a a a a a a a a a a a a a a a a a a a a a a a a a a a a a a a a a a a a a a a a a a a a a a a a a a a a a a a a a a a a a a a a a a a a a a a a a a a a a a a a a a a a a a a a a a a a a a a a a a a a a a a a a a a a a a a a a a a a a a a a a a a a a a a a a a a a a a a a a a a a a a a a a a a a a a a a a a a a a a a a a a a a a a a a a a a a a a a a a a a a a a a a a a a a a a a a a a a a a a a a a a a a a a a a a a a a a a a a a a a a a a a a a a a a a a a a a a a a a a a a a a a a a a a a a a a a a a a a a a a a a a a a a a a a a a a a a a a a a a a a a a a a a a a a a a a a a a a a a a a a a a a a a a a a a a a a a a a a a a a a a a a a a a a a a a a a a a a a a a a a a a a a a a a a a a a a a a a a a a a a a a a a a a a a a a a a a a a a a a a a a a a a a a a a a a a a a a a a a a a a a a a a a a a a a a a a a a a a a a a a a a a a a a a a a a a a a a a a a a a a a a a a a a a a a a a a a a a a a a a a a a a a a a a a a a a a a a a a a a"

def c10llm : Nat → String := fun _ => c10text

def c10st : GenState := ⟨[], [("s2", SessionCtx.empty)]⟩

/-- C10 witness: a 501-word conversational reply exceeds the basic-level
ceiling — the validator reports it invalid — yet `generate` returns it
as-is, caches it, and leaves the context map unchanged. -/
theorem C10_witness :
    (validate_generated_text (pyStripS (c10llm 0)) Level.basico true).1 = false ∧
    generate c10llm "hola" "texto" "" [] Level.basico "es" [] "s2" c10st =
      { result := .ok (pyStripS (c10llm 0), true),
        state := ⟨(generate_cache_key "hola" "texto" "" [] Level.basico [],
                   pyStripS (c10llm 0)) :: c10st.cache, c10st.context⟩,
        calls := [⟨assemble_messages "hola" "" Level.basico "es" []
            ((alookup "s2" c10st.context).getD SessionCtx.empty) true, 200⟩],
        validatorRuns := 1 } :=
  ⟨by decide,
   (C10_conversational_no_validation_error c10llm "hola" "texto" "" "es" "s2"
      [] Level.basico [] c10st rfl).2 rfl rfl⟩

/-! ## Claim C1 — heading numbering across backends -/

/-- Heading texts of a DOCX body, in order. -/
def docxHeadingTexts : List DocxBlock → List (List Char)
  | [] => []
  | .heading1 t :: r => t :: docxHeadingTexts r
  | .heading2 t :: r => t :: docxHeadingTexts r
  | .heading3 t :: r => t :: docxHeadingTexts r
  | _ :: r => docxHeadingTexts r

/-- Heading-styled paragraph texts of a PDF story, in order. -/
def pdfHeadingTexts : List PdfElem → List (List Char)
  | [] => []
  | .para .heading1 t :: r => t :: pdfHeadingTexts r
  | .para .heading2 t :: r => t :: pdfHeadingTexts r
  | .para .heading3 t :: r => t :: pdfHeadingTexts r
  | _ :: r => pdfHeadingTexts r

/-- Modelled from the claim's words (spec §3 invariant, §4.3 rules 2-4, §8):
a trimmed line starting `# ` increments the section counter, resets the
subsection counter and is emitted as `"{section}. "` plus the heading text;
a `## ` line increments the subsection counter and is emitted with the
`"{section}.{subsection} "` prefix; a `### ` line is emitted unnumbered; the
counters persist across all non-heading lines. -/
def spec_numbered_headings : List (List Char) → Nat → Nat → List (List Char)
  | [], _, _ => []
  | l :: ls, sec, sub =>
    if isPfx ['#', ' '] (pyStrip l) then
      (natChars (sec + 1) ++ ['.', ' '] ++ pyStrip ((pyStrip l).drop 2)) ::
        spec_numbered_headings ls (sec + 1) 0
    else if isPfx ['#', '#', ' '] (pyStrip l) then
      (natChars sec ++ ['.'] ++ natChars (sub + 1) ++ [' '] ++ pyStrip ((pyStrip l).drop 3)) ::
        spec_numbered_headings ls sec (sub + 1)
    else if isPfx ['#', '#', '#', ' '] (pyStrip l) then
      pyStrip ((pyStrip l).drop 4) :: spec_numbered_headings ls sec sub
    else spec_numbered_headings ls sec sub

/-- The heading texts as the PDF backend actually emits them: the trimmed
line with its marker stripped and no numbering prefix. -/
def spec_raw_headings (lines : List (List Char)) : List (List Char) :=
  lines.filterMap (fun l =>
    if isPfx ['#', ' '] (pyStrip l) then some ((pyStrip l).drop 2)
    else if isPfx ['#', '#', ' '] (pyStrip l) then some ((pyStrip l).drop 3)
    else if isPfx ['#', '#', '#', ' '] (pyStrip l) then some ((pyStrip l).drop 4)
    else none)

theorem docxHeadingTexts_append (a b : List DocxBlock) :
    docxHeadingTexts (a ++ b) = docxHeadingTexts a ++ docxHeadingTexts b := by
  induction a with
  | nil => rfl
  | cons x xs ih => cases x <;> simp [docxHeadingTexts, ih]

theorem pdfHeadingTexts_append (a b : List PdfElem) :
    pdfHeadingTexts (a ++ b) = pdfHeadingTexts a ++ pdfHeadingTexts b := by
  induction a with
  | nil => rfl
  | cons x xs ih =>
    cases x with
    | para s t => cases s <;> simp [pdfHeadingTexts, ih]
    | spacer w h => simp [pdfHeadingTexts, ih]
    | table rows => simp [pdfHeadingTexts, ih]
    | image => simp [pdfHeadingTexts, ih]
    | chartImage c d => simp [pdfHeadingTexts, ih]

theorem isEmpty_false_of_isPfx_cons (a : Char) (p s : List Char)
    (h : isPfx (a :: p) s = true) : s.isEmpty = false := by
  cases s with
  | nil => simp [isPfx] at h
  | cons b bs => rfl

/-- Branch equation: `# ` heading line in the DOCX backend. -/
theorem docx_step_h1 (st : DocxState) (l : List Char)
    (h1 : isPfx ['#', ' '] (pyStrip l) = true) :
    docx_step st l =
      ({st with sec := st.sec + 1, sub := 0, in_list := false},
       [.heading1 (natChars (st.sec + 1) ++ ['.', ' '] ++ pyStrip ((pyStrip l).drop 2))]) := by
  have h0 := isEmpty_false_of_isPfx_cons '#' [' '] (pyStrip l) h1
  simp [docx_step, h0, h1]

/-- Branch equation: `## ` heading line in the DOCX backend. -/
theorem docx_step_h2 (st : DocxState) (l : List Char)
    (h1 : isPfx ['#', ' '] (pyStrip l) = false)
    (h2 : isPfx ['#', '#', ' '] (pyStrip l) = true) :
    docx_step st l =
      ({st with sub := st.sub + 1, in_list := false},
       [.heading2 (natChars st.sec ++ ['.'] ++ natChars (st.sub + 1) ++ [' '] ++
          pyStrip ((pyStrip l).drop 3))]) := by
  have h0 := isEmpty_false_of_isPfx_cons '#' ['#', ' '] (pyStrip l) h2
  simp [docx_step, h0, h1, h2]

/-- Branch equation: `### ` heading line in the DOCX backend. -/
theorem docx_step_h3 (st : DocxState) (l : List Char)
    (h1 : isPfx ['#', ' '] (pyStrip l) = false)
    (h2 : isPfx ['#', '#', ' '] (pyStrip l) = false)
    (h3 : isPfx ['#', '#', '#', ' '] (pyStrip l) = true) :
    docx_step st l =
      ({st with in_list := false}, [.heading3 (pyStrip ((pyStrip l).drop 4))]) := by
  have h0 := isEmpty_false_of_isPfx_cons '#' ['#', '#', ' '] (pyStrip l) h3
  simp [docx_step, h0, h1, h2, h3]

/-- Every non-heading line of the DOCX backend emits no heading block and
preserves both counters. -/
theorem docx_step_no_heading (st : DocxState) (l : List Char)
    (h1 : isPfx ['#', ' '] (pyStrip l) = false)
    (h2 : isPfx ['#', '#', ' '] (pyStrip l) = false)
    (h3 : isPfx ['#', '#', '#', ' '] (pyStrip l) = false) :
    docxHeadingTexts (docx_step st l).2 = [] ∧
    (docx_step st l).1.sec = st.sec ∧ (docx_step st l).1.sub = st.sub := by
  unfold docx_step
  by_cases hb : (pyStrip l).isEmpty = true
  · simp only [hb, eq_self_iff_true, if_true]
    split_ifs <;> simp [docxHeadingTexts, tableBlocksD]
  · simp only [Bool.not_eq_true] at hb
    simp [hb, h1, h2, h3, docxHeadingTexts, tableBlocksD]
    try split_ifs <;> simp [docxHeadingTexts, tableBlocksD]

/-- The DOCX backend used by `render` numbers its headings exactly per the
running-counter specification, from any starting state. -/
theorem docx_run_headings (lines : List (List Char)) : ∀ st : DocxState,
    docxHeadingTexts (docx_run st lines) = spec_numbered_headings lines st.sec st.sub := by
  induction lines with
  | nil =>
    intro st
    unfold docx_run
    split
    · simp [tableBlocksD, docxHeadingTexts, spec_numbered_headings]
    · simp [docxHeadingTexts, spec_numbered_headings]
  | cons l ls ih =>
    intro st
    show docxHeadingTexts ((docx_step st l).2 ++ docx_run (docx_step st l).1 ls) = _
    rw [docxHeadingTexts_append, ih]
    by_cases h1 : isPfx ['#', ' '] (pyStrip l) = true
    · rw [docx_step_h1 st l h1]
      simp [docxHeadingTexts, spec_numbered_headings, h1]
    · by_cases h2 : isPfx ['#', '#', ' '] (pyStrip l) = true
      · rw [docx_step_h2 st l (by simpa using h1) h2]
        simp [docxHeadingTexts, spec_numbered_headings, h1, h2]
      · by_cases h3 : isPfx ['#', '#', '#', ' '] (pyStrip l) = true
        · rw [docx_step_h3 st l (by simpa using h1) (by simpa using h2) h3]
          simp [docxHeadingTexts, spec_numbered_headings, h1, h2, h3]
        · obtain ⟨he, hsec, hsub⟩ := docx_step_no_heading st l
            (by simpa using h1) (by simpa using h2) (by simpa using h3)
          rw [he, hsec, hsub]
          simp [spec_numbered_headings, h1, h2, h3]

/-- A `# `/`## `/`### ` heading line in the PDF backend emits its anchor and
the unnumbered heading paragraph. -/
theorem pdf_step_h1 (i : Nat) (st : PdfParseState) (l : List Char)
    (h1 : isPfx ['#', ' '] (pyStrip l) = true) :
    pdf_step i st l =
      ({st with in_list := false},
       [anchorPara i, .para .heading1 ((pyStrip l).drop 2)],
       [((pyStrip l).drop 2, anchorName i)]) := by
  have h0 := isEmpty_false_of_isPfx_cons '#' [' '] (pyStrip l) h1
  simp [pdf_step, h0, h1]

theorem pdf_step_h2 (i : Nat) (st : PdfParseState) (l : List Char)
    (h1 : isPfx ['#', ' '] (pyStrip l) = false)
    (h2 : isPfx ['#', '#', ' '] (pyStrip l) = true) :
    pdf_step i st l =
      ({st with in_list := false},
       [anchorPara i, .para .heading2 ((pyStrip l).drop 3)],
       [((pyStrip l).drop 3, anchorName i)]) := by
  have h0 := isEmpty_false_of_isPfx_cons '#' ['#', ' '] (pyStrip l) h2
  simp [pdf_step, h0, h1, h2]

theorem pdf_step_h3 (i : Nat) (st : PdfParseState) (l : List Char)
    (h1 : isPfx ['#', ' '] (pyStrip l) = false)
    (h2 : isPfx ['#', '#', ' '] (pyStrip l) = false)
    (h3 : isPfx ['#', '#', '#', ' '] (pyStrip l) = true) :
    pdf_step i st l =
      ({st with in_list := false},
       [anchorPara i, .para .heading3 ((pyStrip l).drop 4)],
       [((pyStrip l).drop 4, anchorName i)]) := by
  have h0 := isEmpty_false_of_isPfx_cons '#' ['#', '#', ' '] (pyStrip l) h3
  simp [pdf_step, h0, h1, h2, h3]

/-- Every non-heading line of the PDF backend emits no heading-styled
paragraph. -/
theorem pdf_step_no_heading (i : Nat) (st : PdfParseState) (l : List Char)
    (h1 : isPfx ['#', ' '] (pyStrip l) = false)
    (h2 : isPfx ['#', '#', ' '] (pyStrip l) = false)
    (h3 : isPfx ['#', '#', '#', ' '] (pyStrip l) = false) :
    pdfHeadingTexts (pdf_step i st l).2.1 = [] := by
  unfold pdf_step
  by_cases hb : (pyStrip l).isEmpty = true
  · simp only [hb, eq_self_iff_true, if_true]
    simp [pdfHeadingTexts]
  · simp only [Bool.not_eq_true] at hb
    simp [hb, h1, h2, h3, pdfHeadingTexts, anchorPara]
    try split_ifs <;> simp [pdfHeadingTexts, anchorPara]

/-- The PDF backend emits every heading with its marker stripped and no
numbering prefix, from any starting state. -/
theorem pdf_run_headings (lines : List (List Char)) : ∀ (i : Nat) (st : PdfParseState),
    pdfHeadingTexts (pdf_run i st lines).1 = spec_raw_headings lines := by
  induction lines with
  | nil =>
    intro i st
    unfold pdf_run
    by_cases h : st.table_data.isEmpty <;>
      simp [h, pdfHeadingTexts, spec_raw_headings]
  | cons l ls ih =>
    intro i st
    show pdfHeadingTexts ((pdf_step i st l).2.1 ++ (pdf_run (i + 1) (pdf_step i st l).1 ls).1) = _
    rw [pdfHeadingTexts_append, ih]
    by_cases h1 : isPfx ['#', ' '] (pyStrip l) = true
    · rw [pdf_step_h1 i st l h1]
      simp [pdfHeadingTexts, anchorPara, spec_raw_headings, h1]
    · by_cases h2 : isPfx ['#', '#', ' '] (pyStrip l) = true
      · rw [pdf_step_h2 i st l (by simpa using h1) h2]
        simp [pdfHeadingTexts, anchorPara, spec_raw_headings, h1, h2]
      · by_cases h3 : isPfx ['#', '#', '#', ' '] (pyStrip l) = true
        · rw [pdf_step_h3 i st l (by simpa using h1) (by simpa using h2) h3]
          simp [pdfHeadingTexts, anchorPara, spec_raw_headings, h1, h2, h3]
        · rw [pdf_step_no_heading i st l
            (by simpa using h1) (by simpa using h2) (by simpa using h3)]
          simp [spec_raw_headings, h1, h2, h3]

/-- C1 amended: in the DOCX backend used by `render`
(`DocumentGenerator.parse_markdown_for_docx`) each `# ` line increments the
section counter and resets the subsection counter, each `## ` line increments
the subsection counter, emitted texts carry the `{section}. ` /
`{section}.{subsection} ` prefixes, and counters persist across interleaved
non-heading lines — the concrete input yields `1. A`, `1.1 B`, `1.2 C`,
`2. D`, `2.1 E`.  The PDF flow-document backend (`parse_markdown_for_pdf`),
however, emits every heading text *without* any numbering prefix. -/
theorem C1_amended_heading_numbering :
    (∀ (lines : List (List Char)) (st : DocxState),
       docxHeadingTexts (docx_run st lines) = spec_numbered_headings lines st.sec st.sub) ∧
    (∀ (lines : List (List Char)) (i : Nat) (st : PdfParseState),
       pdfHeadingTexts (pdf_run i st lines).1 = spec_raw_headings lines) ∧
    docxHeadingTexts (render_docx "# A\ntexto\n## B\n\n## C\n# D\n- item\n## E" false) =
      ["1. A".toList, "1.1 B".toList, "1.2 C".toList, "2. D".toList, "2.1 E".toList] :=
  ⟨fun lines st => docx_run_headings lines st,
   fun lines i st => pdf_run_headings lines i st,
   by decide⟩

def pdfStoryOf (text : String) : List PdfElem :=
  (parse_markdown_for_pdf id text false).toOption.getD []

/-- C1 counterexample: on the claim's own input `# A ... ## E` the PDF
flow-document backend emits the heading paragraphs `A`, `B` (and so on)
without any numbering prefix — the numbered texts the claim requires do not
occur anywhere in the built story — while the DOCX backend does number them. -/
theorem C1_counterexample :
    PdfElem.para .heading1 "A".toList ∈ pdfStoryOf "# A\n## B\n## C\n# D\n## E" ∧
    PdfElem.para .heading1 "1. A".toList ∉ pdfStoryOf "# A\n## B\n## C\n# D\n## E" ∧
    PdfElem.para .heading2 "B".toList ∈ pdfStoryOf "# A\n## B\n## C\n# D\n## E" ∧
    PdfElem.para .heading2 "1.1 B".toList ∉ pdfStoryOf "# A\n## B\n## C\n# D\n## E" ∧
    docxHeadingTexts (render_docx "# A\n## B\n## C\n# D\n## E" false) =
      ["1. A".toList, "1.1 B".toList, "1.2 C".toList, "2. D".toList, "2.1 E".toList] := by
  decide

/-- Decidable equality for `Except`, used to evaluate parser results on
concrete inputs. -/
def exceptDecEq {ε α : Type} [DecidableEq ε] [DecidableEq α] :
    DecidableEq (Except ε α) := fun a b =>
  match a, b with
  | .error e, .error f =>
    if h : e = f then .isTrue (by rw [h]) else .isFalse (by simp [h])
  | .error _, .ok _ => .isFalse (by simp)
  | .ok _, .error _ => .isFalse (by simp)
  | .ok x, .ok y =>
    if h : x = y then .isTrue (by rw [h]) else .isFalse (by simp [h])

instance {ε α : Type} [DecidableEq ε] [DecidableEq α] : DecidableEq (Except ε α) :=
  exceptDecEq

/-! ## Claim C5 — blank lines and pending tables -/

theorem isEmpty_false_of_ne_nil (s : List Char) (h : s ≠ []) : s.isEmpty = false := by
  cases s with
  | nil => exact absurd rfl h
  | cons a t => rfl

/-- C5 amended: on a blank line the PDF backend emits only the spacer and
leaves the whole state — in particular the pending table accumulator —
untouched (the table is flushed later, by the next paragraph-class line or at
end of input); the DOCX backend used by `render` flushes the pending table
(the flush itself appends the table block and a spacing paragraph) but emits
nothing for the blank line itself. -/
theorem C5_amended_blank_line_behavior :
    (∀ (i : Nat) (st : PdfParseState) (l : List Char), pyStrip l = [] →
       pdf_step i st l = (st, [PdfElem.spacer 1 12], [])) ∧
    (∀ (st : DocxState) (l : List Char), pyStrip l = [] →
       st.in_table = true → st.table_data ≠ [] →
       docx_step st l = ({st with in_table := false, table_data := []},
         [DocxBlock.table st.table_data, DocxBlock.emptyPara])) := by
  constructor
  · intro i st l h
    have hb : (pyStrip l).isEmpty = true := by rw [h]; rfl
    simp [pdf_step, hb]
  · intro st l h ht htd
    have hb : (pyStrip l).isEmpty = true := by rw [h]; rfl
    have htd' : st.table_data.isEmpty = false := by
      cases hc : st.table_data with
      | nil => exact absurd hc htd
      | cons a t => rfl
    simp [docx_step, hb, ht, htd', tableBlocksD]

theorem C5_witness :
    pdf_step 7 ⟨false, 0, [[['a'], ['b']]]⟩ [' ', ' '] =
      (⟨false, 0, [[['a'], ['b']]]⟩, [PdfElem.spacer 1 12], []) ∧
    docx_step ⟨3, 1, false, 0, true, [[['a'], ['b']]]⟩ [] =
      (⟨3, 1, false, 0, false, []⟩,
       [DocxBlock.table [[['a'], ['b']]], DocxBlock.emptyPara]) :=
  ⟨C5_amended_blank_line_behavior.1 7 ⟨false, 0, [[['a'], ['b']]]⟩ [' ', ' '] (by decide),
   C5_amended_blank_line_behavior.2 ⟨3, 1, false, 0, true, [[['a'], ['b']]]⟩ []
     (by decide) rfl (by decide)⟩

/-- C5 counterexample: on `|a|b|` + blank + `fin` the PDF backend appends the
blank line's spacer while the table is still pending, and the table only
appears later (flushed by `fin`) — the spacer precedes the table, the reverse
of the order the claim requires.  The DOCX backend used by `render` does
flush on the blank line but emits no paragraph-break for it. -/
theorem C5_counterexample :
    parse_markdown_for_pdf id "|a|b|\n\nfin" false =
      .ok [PdfElem.para .heading1 "Índice".toList, .spacer 1 20, .spacer 1 12,
           .table [["a".toList, "b".toList]], .para .bodyText "fin".toList] ∧
    parse_markdown_for_pdf id "|a|b|\n\nfin" false ≠
      .ok [PdfElem.para .heading1 "Índice".toList, .spacer 1 20,
           .table [["a".toList, "b".toList]], .spacer 1 12, .para .bodyText "fin".toList] ∧
    render_docx "|a|b|\n\nfin" false =
      [DocxBlock.table [["a".toList, "b".toList]], .emptyPara, .paraPlain "fin".toList] := by
  decide

/-! ## Claim C6 — indented bullets are unreachable after trimming -/

theorem dropWhile_head_not (p : Char → Bool) (l : List Char) (c : Char) (r : List Char)
    (h : l.dropWhile p = c :: r) : p c = false := by
  induction l with
  | nil => simp [List.dropWhile] at h
  | cons a t ih =>
    rw [List.dropWhile_cons] at h
    by_cases ha : p a = true
    · rw [if_pos ha] at h
      exact ih h
    · rw [if_neg ha] at h
      obtain ⟨h1, h2⟩ := List.cons.inj h
      rw [← h1]
      simpa using ha

/-- The head of a stripped line is never whitespace. -/
theorem pyStrip_head_not_space (l : List Char) (c : Char) (r : List Char)
    (h : pyStrip l = c :: r) : isPySpace c = false := by
  unfold pyStrip at h
  obtain ⟨t, ht⟩ := @List.dropWhile_suffix Char (l.dropWhile isPySpace).reverse isPySpace
  have hm : (l.dropWhile isPySpace).reverse.reverse =
      ((l.dropWhile isPySpace).reverse.dropWhile isPySpace).reverse ++ t.reverse := by
    conv_lhs => rw [← ht]
    rw [List.reverse_append]
  rw [List.reverse_reverse, h] at hm
  exact dropWhile_head_not isPySpace l c (r ++ t.reverse) (by rw [hm]; rfl)

/-- No stripped line starts with a space, so no line can be classified by the
two-space-indented bullet patterns. -/
theorem pyStrip_no_indent (l : List Char) (p : List Char) :
    isPfx (' ' :: p) (pyStrip l) = false := by
  cases hs : pyStrip l with
  | nil => rfl
  | cons c r =>
    have hc := pyStrip_head_not_space l c r hs
    have hbeq : (' ' == c) = false := by
      cases hq : (' ' == c) with
      | false => rfl
      | true =>
        have he : ' ' = c := eq_of_beq hq
        rw [← he] at hc
        simp [isPySpace] at hc
    simp [isPfx, hbeq]

theorem isPfx_two (a b : Char) (s : List Char) (h : isPfx [a, b] s = true) :
    ∃ t, s = a :: b :: t := by
  cases s with
  | nil => simp [isPfx] at h
  | cons x xs =>
    cases xs with
    | nil => simp [isPfx] at h
    | cons y ys =>
      simp [isPfx] at h
      exact ⟨ys, by rw [h.1, h.2]⟩

/-- C6 amended: every line is stripped before classification, so the
two-leading-spaces bullet patterns can never match (the stripped line never
starts with a space) and the indented-bullet branches are unreachable; a line
whose trimmed form starts with `- ` or `* ` — whether or not the original
line was indented — is classified as a first-level bullet with the
2-character marker stripped, in both backends. -/
theorem C6_amended_bullet_classification :
    (∀ (l : List Char) (p : List Char), isPfx (' ' :: p) (pyStrip l) = false) ∧
    (∀ l : List Char,
       (isPfx ['-', ' '] (pyStrip l) = true ∨ isPfx ['*', ' '] (pyStrip l) = true) →
       docx_step docxInit l =
         ({docxInit with in_list := true, list_level := 1},
          [DocxBlock.listItem 1 (pyStrip ((pyStrip l).drop 2))]) ∧
       pdf_step 0 pdfInit l =
         ({pdfInit with in_list := true},
          [PdfElem.para .bodyText ('•' :: ' ' :: (pyStrip l).drop 2)], [])) := by
  refine ⟨fun l p => pyStrip_no_indent l p, fun l h => ?_⟩
  rcases h with h | h
  · obtain ⟨t, hts⟩ := isPfx_two '-' ' ' (pyStrip l) h
    constructor
    · simp [docx_step, hts, docxInit, isPfx]
    · simp [pdf_step, hts, pdfInit, isPfx]
  · obtain ⟨t, hts⟩ := isPfx_two '*' ' ' (pyStrip l) h
    constructor
    · simp [docx_step, hts, docxInit, isPfx]
    · simp [pdf_step, hts, pdfInit, isPfx]

theorem C6_witness :
    docx_step docxInit "  - foo".toList =
      ({docxInit with in_list := true, list_level := 1},
       [DocxBlock.listItem 1 "foo".toList]) ∧
    pdf_step 0 pdfInit "  - foo".toList =
      ({pdfInit with in_list := true}, [PdfElem.para .bodyText "• foo".toList], []) := by
  have h := C6_amended_bullet_classification.2 "  - foo".toList (Or.inl (by decide))
  exact ⟨by rw [h.1]; rfl, by rw [h.2]; rfl⟩

/-- C6 counterexample: the indented form `  - foo` and the flat form `- foo`
produce identical output in both backends (and in the unused utils DOCX
variant): the indented form is *not* classified as a second-level bullet and
the two forms are indistinguishable in the emitted document. -/
theorem C6_counterexample :
    render_docx "  - foo" false = [DocxBlock.listItem 1 "foo".toList] ∧
    render_docx "- foo" false = [DocxBlock.listItem 1 "foo".toList] ∧
    parse_markdown_for_pdf id "  - foo" false = parse_markdown_for_pdf id "- foo" false ∧
    utils_parse_markdown_for_docx id "  - foo" false =
      utils_parse_markdown_for_docx id "- foo" false := by
  decide

/-! ## Claim C7 — paragraph styling and the two DOCX variants -/

/-- Paragraph-class branch of the DOCX backend used by `render`: the trimmed
line is added raw, as a single plain-styled paragraph, with no inline
emphasis splitting. -/
theorem docx_step_para (st : DocxState) (l : List Char)
    (h0 : pyStrip l ≠ [])
    (h1 : isPfx ['#', ' '] (pyStrip l) = false)
    (h2 : isPfx ['#', '#', ' '] (pyStrip l) = false)
    (h3 : isPfx ['#', '#', '#', ' '] (pyStrip l) = false)
    (hb1 : isPfx ['-', ' '] (pyStrip l) = false)
    (hb2 : isPfx ['*', ' '] (pyStrip l) = false)
    (hp : isPfx ['|'] (pyStrip l) = false)
    (ht : st.in_table = false) :
    docx_step st l =
      ({st with in_list := false, list_level := 0}, [.paraPlain (pyStrip l)]) := by
  have hbe := isEmpty_false_of_ne_nil (pyStrip l) h0
  have hi1 := pyStrip_no_indent l [' ', '-', ' ']
  have hi2 := pyStrip_no_indent l [' ', '*', ' ']
  simp [docx_step, hbe, h1, h2, h3, hb1, hb2, hi1, hi2, hp, ht]

/-- Paragraph-class branch of the PDF backend: the trimmed line becomes one
body-text paragraph, emitted raw. -/
theorem pdf_step_para (i : Nat) (st : PdfParseState) (l : List Char)
    (h0 : pyStrip l ≠ [])
    (h1 : isPfx ['#', ' '] (pyStrip l) = false)
    (h2 : isPfx ['#', '#', ' '] (pyStrip l) = false)
    (h3 : isPfx ['#', '#', '#', ' '] (pyStrip l) = false)
    (hb1 : isPfx ['-', ' '] (pyStrip l) = false)
    (hb2 : isPfx ['*', ' '] (pyStrip l) = false)
    (hp : isPfx ['|'] (pyStrip l) = false)
    (htd : st.table_data = []) (hl : st.in_list = false) :
    pdf_step i st l =
      (⟨false, st.list_level, []⟩, [.para .bodyText (pyStrip l)], []) := by
  have hbe := isEmpty_false_of_ne_nil (pyStrip l) h0
  have hi1 := pyStrip_no_indent l [' ', '-', ' ']
  have hi2 := pyStrip_no_indent l [' ', '*', ' ']
  simp [pdf_step, hbe, h1, h2, h3, hb1, hb2, hi1, hi2, hp, htd, hl]

/-- Paragraph-class branch of the *unused* utils DOCX variant: this one — and
only this one — splits the line into `**bold**`/`*italic*` runs. -/
theorem utils_docx_step_para (st : UDocxState) (l : List Char)
    (h0 : pyStrip l ≠ [])
    (h1 : isPfx ['#', ' '] (pyStrip l) = false)
    (h2 : isPfx ['#', '#', ' '] (pyStrip l) = false)
    (h3 : isPfx ['#', '#', '#', ' '] (pyStrip l) = false)
    (hb1 : isPfx ['-', ' '] (pyStrip l) = false)
    (hb2 : isPfx ['*', ' '] (pyStrip l) = false)
    (hp : isPfx ['|'] (pyStrip l) = false)
    (htd : st.table_data = []) (hl : st.in_list = false) :
    utils_docx_step st l =
      (⟨false, st.list_level, []⟩, [.paraRuns (emphasis_runs (pyStrip l))]) := by
  have hbe := isEmpty_false_of_ne_nil (pyStrip l) h0
  have hi1 := pyStrip_no_indent l [' ', '-', ' ']
  have hi2 := pyStrip_no_indent l [' ', '*', ' ']
  simp [utils_docx_step, hbe, h1, h2, h3, hb1, hb2, hi1, hi2, hp, htd, hl]

/-- C7 amended: for every paragraph-class line, the DOCX backend that
`render` actually invokes (`DocumentGenerator.parse_markdown_for_docx`) adds
the raw trimmed line as a single plain-styled paragraph — no splitting on
`**bold**`/`*italic*` runs — and the PDF backend adds it as one body-text
paragraph; the inline-emphasis splitting claimed for the render path exists
only in the module function `utils.parse_markdown_for_docx`, which `render`
never calls. -/
theorem C7_amended_paragraph_handling :
    (∀ (st : DocxState) (l : List Char),
       pyStrip l ≠ [] →
       isPfx ['#', ' '] (pyStrip l) = false →
       isPfx ['#', '#', ' '] (pyStrip l) = false →
       isPfx ['#', '#', '#', ' '] (pyStrip l) = false →
       isPfx ['-', ' '] (pyStrip l) = false →
       isPfx ['*', ' '] (pyStrip l) = false →
       isPfx ['|'] (pyStrip l) = false →
       st.in_table = false →
       docx_step st l =
         ({st with in_list := false, list_level := 0}, [.paraPlain (pyStrip l)])) ∧
    (∀ (i : Nat) (st : PdfParseState) (l : List Char),
       pyStrip l ≠ [] →
       isPfx ['#', ' '] (pyStrip l) = false →
       isPfx ['#', '#', ' '] (pyStrip l) = false →
       isPfx ['#', '#', '#', ' '] (pyStrip l) = false →
       isPfx ['-', ' '] (pyStrip l) = false →
       isPfx ['*', ' '] (pyStrip l) = false →
       isPfx ['|'] (pyStrip l) = false →
       st.table_data = [] → st.in_list = false →
       pdf_step i st l =
         (⟨false, st.list_level, []⟩, [.para .bodyText (pyStrip l)], [])) ∧
    (∀ (st : UDocxState) (l : List Char),
       pyStrip l ≠ [] →
       isPfx ['#', ' '] (pyStrip l) = false →
       isPfx ['#', '#', ' '] (pyStrip l) = false →
       isPfx ['#', '#', '#', ' '] (pyStrip l) = false →
       isPfx ['-', ' '] (pyStrip l) = false →
       isPfx ['*', ' '] (pyStrip l) = false →
       isPfx ['|'] (pyStrip l) = false →
       st.table_data = [] → st.in_list = false →
       utils_docx_step st l =
         (⟨false, st.list_level, []⟩, [.paraRuns (emphasis_runs (pyStrip l))])) :=
  ⟨fun st l a b c d e f g h => docx_step_para st l a b c d e f g h,
   fun i st l a b c d e f g h k => pdf_step_para i st l a b c d e f g h k,
   fun st l a b c d e f g h k => utils_docx_step_para st l a b c d e f g h k⟩

theorem C7_witness :
    docx_step docxInit "**negrita**".toList =
      ({docxInit with in_list := false, list_level := 0},
       [DocxBlock.paraPlain "**negrita**".toList]) ∧
    pdf_step 0 pdfInit "**negrita**".toList =
      (⟨false, 0, []⟩, [PdfElem.para .bodyText "**negrita**".toList], []) ∧
    utils_docx_step ⟨false, 0, []⟩ "**negrita**".toList =
      (⟨false, 0, []⟩,
       [DocxBlock.paraRuns [.plain [], .boldR "negrita".toList, .plain []]]) := by
  refine ⟨?_, ?_, ?_⟩
  · rw [C7_amended_paragraph_handling.1 docxInit "**negrita**".toList (by decide) (by decide)
      (by decide) (by decide) (by decide) (by decide) (by decide) rfl]
    rfl
  · rw [C7_amended_paragraph_handling.2.1 0 pdfInit "**negrita**".toList (by decide) (by decide)
      (by decide) (by decide) (by decide) (by decide) (by decide) rfl rfl]
    rfl
  · rw [C7_amended_paragraph_handling.2.2 ⟨false, 0, []⟩ "**negrita**".toList (by decide)
      (by decide) (by decide) (by decide) (by decide) (by decide) (by decide) rfl rfl]
    rfl

/-- C7 counterexample: on the paragraph line `**negrita**`, the DOCX backend
that `render` invokes emits the raw text with its asterisk markers intact as
a single plain paragraph — not the bold sub-span with markers stripped that
the claim describes — while the unused utils variant is the one that
produces the styled runs. -/
theorem C7_counterexample :
    render_docx "**negrita**" false = [DocxBlock.paraPlain "**negrita**".toList] ∧
    utils_parse_markdown_for_docx id "**negrita**" false =
      .ok [DocxBlock.tocField "Índice".toList, .emptyPara,
           .paraRuns [.plain [], .boldR "negrita".toList, .plain []]] ∧
    DocxBlock.paraPlain "**negrita**".toList ≠
      DocxBlock.paraRuns [.plain [], .boldR "negrita".toList, .plain []] ∧
    "**negrita**".toList ≠ "negrita".toList := by
  decide

/-! ## Claim C8 — chart directives -/

/-- Number of chart images in a PDF story. -/
def countChartImages : List PdfElem → Nat
  | [] => 0
  | .chartImage _ _ :: r => countChartImages r + 1
  | _ :: r => countChartImages r

/-- A directive line overwrites the scan state wholesale: the step's result
does not depend on the incoming state, so the last directive wins. -/
theorem chartStep_state_free (s1 s2 : ChartScan) (l : List Char)
    (h : chartLineTriggered l = true) : chartStep s1 l = chartStep s2 l := by
  unfold chartLineTriggered at h
  by_cases hb : hasInfixL (pyLower (pyStrip l)) barPhrase = true
  · simp [chartStep, hb]
  · by_cases hl : hasInfixL (pyLower (pyStrip l)) linePhrase = true
    · simp [chartStep, hb, hl]
    · simp [hb, hl] at h

theorem foldlM_chartStep_append (lines : List (List Char)) :
    ∀ (s0 : ChartScan) (l : List Char),
      List.foldlM chartStep s0 (lines ++ [l]) =
        match List.foldlM chartStep s0 lines with
        | .ok s => chartStep s l
        | .error e => .error e := by
  induction lines with
  | nil =>
    intro s0 l
    show List.foldlM chartStep s0 [l] = chartStep s0 l
    cases hx : chartStep s0 l <;> simp [List.foldlM, hx]
  | cons x xs ih =>
    intro s0 l
    rw [List.cons_append]
    show (chartStep s0 x >>= fun s => List.foldlM chartStep s (xs ++ [l])) = _
    cases hx : chartStep s0 x with
    | error e =>
      have hfold : List.foldlM chartStep s0 (x :: xs) = .error e := by
        show (chartStep s0 x >>= fun s => List.foldlM chartStep s xs) = _
        rw [hx]
        rfl
      rw [hfold]
      rfl
    | ok s =>
      have hfold : List.foldlM chartStep s0 (x :: xs) = List.foldlM chartStep s xs := by
        show (chartStep s0 x >>= fun s => List.foldlM chartStep s xs) = _
        rw [hx]
        rfl
      rw [hfold]
      show List.foldlM chartStep s (xs ++ [l]) = _
      exact ih s l

/-- C8: the chart pre-pass over all lines of the claim's input detects one
bar-chart directive and parses `Enero:10, Febrero:20` into the expected
mapping, and the built PDF story carries exactly one chart image with exactly
those two labelled values; the malformed value `abc` in `Enero:abc` sets the
chart data to `None` without raising, the render proceeds and the story
carries no chart image; and since a directive line overwrites both scan
variables independently of the prior state, when several directives occur the
last one found wins. -/
theorem C8_chart_directive :
    detectChart (splitOnChar '\n'
        "Aquí un gráfico de barras con datos: Enero:10, Febrero:20".toList) =
      .ok ⟨some .bar, some [("Enero".toList, 10), ("Febrero".toList, 20)]⟩ ∧
    countChartImages (pdfStoryOf "Aquí un gráfico de barras con datos: Enero:10, Febrero:20") = 1 ∧
    PdfElem.chartImage .bar [("Enero".toList, 10), ("Febrero".toList, 20)] ∈
      pdfStoryOf "Aquí un gráfico de barras con datos: Enero:10, Febrero:20" ∧
    detectChart (splitOnChar '\n' "Aquí un gráfico de barras con datos: Enero:abc".toList) =
      .ok ⟨some .bar, none⟩ ∧
    (parse_markdown_for_pdf id "Aquí un gráfico de barras con datos: Enero:abc" false).toOption.isSome = true ∧
    countChartImages (pdfStoryOf "Aquí un gráfico de barras con datos: Enero:abc") = 0 ∧
    (∀ (s1 s2 : ChartScan) (l : List Char), chartLineTriggered l = true →
       chartStep s1 l = chartStep s2 l) ∧
    (∀ (lines : List (List Char)) (l : List Char) (s : ChartScan),
       chartLineTriggered l = true → detectChart lines = .ok s →
       detectChart (lines ++ [l]) = chartStep ⟨none, none⟩ l) := by
  refine ⟨by decide, by decide, by decide, by decide, by decide, by decide,
    chartStep_state_free, ?_⟩
  intro lines l s h hok
  unfold detectChart at hok ⊢
  rw [foldlM_chartStep_append lines ⟨none, none⟩ l, hok]
  exact chartStep_state_free s ⟨none, none⟩ l h

def c8line1 : List Char := "gráfico de líneas con datos: x:1".toList

def c8line2 : List Char := "Aquí un gráfico de barras con datos: y:3".toList

theorem C8_witness :
    detectChart ([c8line1] ++ [c8line2]) = chartStep ⟨none, none⟩ c8line2 ∧
    chartStep ⟨none, none⟩ c8line2 = .ok ⟨some .bar, some [(['y'], 3)]⟩ ∧
    chartStep ⟨some .line, some [(['x'], 1)]⟩ c8line2 = chartStep ⟨none, none⟩ c8line2 := by
  refine ⟨?_, by decide, ?_⟩
  · exact C8_chart_directive.2.2.2.2.2.2.2 [c8line1] c8line2
      ⟨some .line, some [(['x'], 1)]⟩ (by decide) (by decide)
  · exact C8_chart_directive.2.2.2.2.2.2.1 ⟨some .line, some [(['x'], 1)]⟩
      ⟨none, none⟩ c8line2 (by decide)

end IAGen
